import Mathlib

/-!
Verification of the sentiment-scoring and trade-recommendation engine of
`src/app.py` (an intraday option-selling dashboard).

Embedding conventions:
* Python floats are modelled as exact rationals (`ℚ`).  Every comparison and
  arithmetic operation of the engine is rational, so this is faithful up to
  float rounding noise, which the engine's own `round(_, 1)` display rounding
  absorbs at every concrete value the specification mentions.
* `math.log` (IEEE double natural logarithm) is modelled as an abstract
  parameter `flog : ℚ → ℚ`.  Statements that depend on a concrete logarithm
  value carry a rational interval hypothesis on `flog`; the interval is proved
  (over `ℝ`) to contain the true natural logarithm, so the IEEE value
  satisfies the hypothesis.
* Python `round(x, 1)` is modelled by `round1` (round half up to one decimal).
  Python uses round-half-to-even on binary floats; the two agree except at
  exact decimal ties of the binary value, which arise at none of the values
  the engine or the specification exercises.
* Labels are the exact f-string texts, as `List Char`; interpolated numbers
  are rendered by `ratChars`/`natChars` (digits, `-`, `/` only — the rendering
  of Python differs in format but not in alphabet, and the engine only ever
  inspects labels through substring tests for the words `Bullish`/`Bearish`).
* Python's `in` substring test is `pyIn`.
* Operations that can raise in Python (`/` on zero, `math.log` on a
  non-positive argument) additionally get an `Option`-returning variant
  (`pyDiv`, `pyLog`, `…E`) used to state that the engine never raises.
-/

/-- One decimal digit as a character. -/
def digitChar (n : ℕ) : Char :=
  if n = 0 then '0' else if n = 1 then '1' else if n = 2 then '2'
  else if n = 3 then '3' else if n = 4 then '4' else if n = 5 then '5'
  else if n = 6 then '6' else if n = 7 then '7' else if n = 8 then '8'
  else '9'

/-- Decimal rendering of a natural number. -/
def natChars (n : ℕ) : List Char :=
  if _h : n < 10 then [digitChar n]
  else natChars (n / 10) ++ [digitChar (n % 10)]
decreasing_by exact Nat.div_lt_self (by omega) (by omega)

/-- Decimal rendering of an integer. -/
def intChars (i : ℤ) : List Char :=
  if i < 0 then '-' :: natChars i.natAbs else natChars i.natAbs

/-- Rendering of a rational as `num/den`.  This abstracts Python's float
`repr`; only its alphabet (digits, `-`, `/`) matters to the engine, which
never branches on the numeric text of a label. -/
def ratChars (q : ℚ) : List Char :=
  intChars q.num ++ ('/' :: natChars q.den)

/-- The characters that can appear in a rendered number. -/
def numAlphabet : List Char := ('-' :: '/' :: ("0123456789".toList))

/-- A factor label: the exact text the Python code builds with f-strings. -/
abbrev Label := List Char

/-- Python's substring test `sub in l` on character lists. -/
def pyIn (sub : List Char) : List Char → Bool
  | [] => sub.isEmpty
  | c :: t => sub.isPrefixOf (c :: t) || pyIn sub t

/-- Python `round(q, 1)`: one-decimal rounding (half up; see header note). -/
def round1 (q : ℚ) : ℚ := ((round (q * 10) : ℤ) : ℚ) / 10

/-- Python `round(q, 3)`: three-decimal rounding. -/
def round3 (q : ℚ) : ℚ := ((round (q * 1000) : ℤ) : ℚ) / 1000

/-! ### Factor scorers, from `src/app.py` lines 176–230 -/

/-- `score_vix` (app.py 176–180): volatility filter.  Returns the score
adjustment and the label; `-999` is the "blocked" sentinel. -/
def score_vix : Option ℚ → ℚ × Label
  | none => (0, ("Unknown".toList))
  | some vix =>
    if vix > 20 then (-999, ratChars vix ++ (" 🔴 DANGER — Avoid selling".toList))
    else if vix > 15 then (-10, ratChars vix ++ (" 🟡 Elevated — Reduce size".toList))
    else (0, ratChars vix ++ (" 🟢 Safe zone".toList))

/-- Count of entries that are present and strictly positive
(`sum(1 for v in ... if v is not None and v > 0)`). -/
def upCount (changes : List (Option ℚ)) : ℕ :=
  changes.countP fun v => match v with
    | some x => decide (0 < x)
    | none => false

/-- Count of entries that are present and strictly negative. -/
def downCount (changes : List (Option ℚ)) : ℕ :=
  changes.countP fun v => match v with
    | some x => decide (x < 0)
    | none => false

/-- Label of the bullish branch of `score_nifty_breadth`. -/
def niftyBullLabel (pts : ℚ) (up : ℕ) : Label :=
  ratChars pts ++ (" Bullish (".toList ++ (natChars up ++ ("/10 up)".toList)))

/-- Label of the bearish branch of `score_nifty_breadth`. -/
def niftyBearLabel (pts : ℚ) (down : ℕ) : Label :=
  ratChars pts ++ (" Bearish (".toList ++ (natChars down ++ ("/10 down)".toList)))

/-- Label of the final neutral branch of `score_nifty_breadth`. -/
def niftyNeutLabel (up down : ℕ) : Label :=
  "15 Neutral (".toList ++ (natChars up ++ (" up / ".toList ++ (natChars down ++ (" down)".toList))))

/-- `score_nifty_breadth` (app.py 182–193): basket breadth over the ten
Nifty large caps.  Returns `(points, label, up, down)`. -/
def score_nifty_breadth (stock_changes : List (Option ℚ)) : ℚ × Label × ℕ × ℕ :=
  let up := upCount stock_changes
  let down := downCount stock_changes
  if up + down = 0 then (15, ("15 Neutral".toList), up, down)
  else if 6 ≤ up then
    let pts := round1 ((up : ℚ) / 10 * 30)
    (pts, niftyBullLabel pts up, up, down)
  else if 6 ≤ down then
    let pts := round1 ((down : ℚ) / 10 * 30)
    (pts, niftyBearLabel pts down, up, down)
  else (15, niftyNeutLabel up down, up, down)

/-- Label of the bullish branch of `score_oi_ratio`. -/
def oiBullLabel (pts r : ℚ) : Label :=
  ratChars pts ++ (" Bullish (OI ratio ".toList ++ (ratChars r ++ (")".toList)))

/-- Label of the bearish branch of `score_oi_ratio`. -/
def oiBearLabel (pts r : ℚ) : Label :=
  ratChars pts ++ (" Bearish (OI ratio ".toList ++ (ratChars r ++ (")".toList)))

/-- Label of the final neutral branch of `score_oi_ratio`. -/
def oiNeutLabel (r : ℚ) : Label :=
  "15 Neutral (OI ratio ".toList ++ (ratChars r ++ (")".toList))

/-- `score_oi_ratio` (app.py 195–204): put/call open-interest ratio scorer. -/
def score_oi_ratio : Option ℚ → ℚ × Label
  | none => (15, ("15 Neutral (data unavailable)".toList))
  | some r =>
    if r > 1 then
      let pts := round1 (min 30 ((r - 1) * 30 + 15))
      (pts, oiBullLabel pts r)
    else if r < 7/10 then
      let pts := round1 (min 30 ((1 - r) * 30 + 15))
      (pts, oiBearLabel pts r)
    else (15, oiNeutLabel r)

/-- Label of the log-scaled bullish branch of `score_adv_dec`. -/
def advBullLabel (pts : ℚ) (a d : ℕ) : Label :=
  ratChars pts ++ (" Bullish (".toList ++ (natChars a ++ ("A / ".toList ++ (natChars d ++ ("D)".toList)))))

/-- Label of the log-scaled bearish branch of `score_adv_dec`. -/
def advBearLabel (pts : ℚ) (a d : ℕ) : Label :=
  ratChars pts ++ (" Bearish (".toList ++ (natChars a ++ ("A / ".toList ++ (natChars d ++ ("D)".toList)))))

/-- Label of the final neutral branch of `score_adv_dec`. -/
def advNeutLabel (a d : ℕ) : Label :=
  "10 Neutral (".toList ++ (natChars a ++ ("A / ".toList ++ (natChars d ++ ("D)".toList))))

/-- `score_adv_dec` (app.py 206–215): advance/decline scorer.  `flog` models
`math.log` on floats. -/
def score_adv_dec (flog : ℚ → ℚ) (advances declines : ℕ) : ℚ × Label :=
  if advances = 0 ∧ declines = 0 then (10, ("10 Neutral".toList))
  else if declines = 0 then (20, ("20 Bullish (all advances)".toList))
  else if advances = 0 then (20, ("20 Bearish (all declines)".toList))
  else
    let r : ℚ := (advances : ℚ) / (declines : ℚ)
    let strength := min 1 |flog r|
    let pts := round1 (strength * 20)
    if r > 11/10 then (pts, advBullLabel pts advances declines)
    else if r < 9/10 then (pts, advBearLabel pts advances declines)
    else (10, advNeutLabel advances declines)

/-- Label of the log-scaled bullish branch of `score_sectors`. -/
def secBullLabel (pts : ℚ) (bull bear : ℕ) : Label :=
  ratChars pts ++ (" Bullish (".toList ++ (natChars bull ++ ("🟢 / ".toList ++ (natChars bear ++ ("🔴)".toList)))))

/-- Label of the log-scaled bearish branch of `score_sectors`. -/
def secBearLabel (pts : ℚ) (bull bear : ℕ) : Label :=
  ratChars pts ++ (" Bearish (".toList ++ (natChars bull ++ ("🟢 / ".toList ++ (natChars bear ++ ("🔴)".toList)))))

/-- Label of the neutral band branch of `score_sectors`. -/
def secNeutLabel (bull bear : ℕ) : Label :=
  "10 Neutral (".toList ++ (natChars bull ++ ("🟢 / ".toList ++ (natChars bear ++ ("🔴)".toList))))

/-- Label of the flat-20 bullish branch of `score_sectors`. -/
def secFlatBullLabel (bull bear : ℕ) : Label :=
  "20 Bullish (".toList ++ (natChars bull ++ ("🟢 / ".toList ++ (natChars bear ++ ("🔴)".toList))))

/-- Label of the flat-20 bearish branch of `score_sectors`. -/
def secFlatBearLabel (bull bear : ℕ) : Label :=
  "20 Bearish (".toList ++ (natChars bull ++ ("🟢 / ".toList ++ (natChars bear ++ ("🔴)".toList))))

/-- `score_sectors` (app.py 217–230): sector breadth scorer.
Returns `(points, label, bull, bear)`. -/
def score_sectors (flog : ℚ → ℚ) (sector_changes : List (Option ℚ)) : ℚ × Label × ℕ × ℕ :=
  let bull := upCount sector_changes
  let bear := downCount sector_changes
  if bull + bear = 0 then (10, ("10 Neutral".toList), bull, bear)
  else if 0 < bull ∧ 0 < bear then
    let r : ℚ := (bull : ℚ) / (bear : ℚ)
    let strength := min 1 |flog r|
    let pts := round1 (strength * 20)
    if r > 11/10 then (pts, secBullLabel pts bull bear, bull, bear)
    else if r < 9/10 then (pts, secBearLabel pts bull bear, bull, bear)
    else (10, secNeutLabel bull bear, bull, bear)
  else if bear < bull then (20, secFlatBullLabel bull bear, bull, bear)
  else (20, secFlatBearLabel bull bear, bull, bear)

/-! ### Recommendation engine and scoring pipeline (app.py 232–250, 424–431) -/

/-- A trade recommendation, the dict `{"type", "message", "delta"}`. -/
structure TradeRec where
  type : String
  message : String
  delta : String
deriving DecidableEq

/-- The blocked recommendation (app.py 234–236). -/
def blockedRec : TradeRec :=
  ⟨"BLOCKED", "🚫 VIX too high — Do NOT sell options today", "Stay flat"⟩

/-- The flat recommendation (app.py 240–242). -/
def flatRec : TradeRec :=
  ⟨"FLAT", "⚖️ Mixed signals → Sell BOTH sides (Iron Condor / Strangle)", "10–20Δ CE & PE"⟩

/-- The strong-edge directional recommendation (app.py 245–247). -/
def strongRec (direction : String) : TradeRec :=
  ⟨"DIRECTIONAL", "🔥 Strong edge → Sell " ++ direction, "0.30–0.40Δ"⟩

/-- The decent-edge directional recommendation (app.py 248–250). -/
def decentRec (direction : String) : TradeRec :=
  ⟨"DIRECTIONAL", "✅ Decent edge → Sell " ++ direction, "0.30Δ"⟩

/-- `sum("Bullish" in v for v in details.values())` (app.py 237). -/
def bullCount (details : List Label) : ℕ :=
  details.countP fun v => pyIn ("Bullish".toList) v

/-- `sum("Bearish" in v for v in details.values())` (app.py 238). -/
def bearCount (details : List Label) : ℕ :=
  details.countP fun v => pyIn ("Bearish".toList) v

/-- `get_trade_recommendation` (app.py 232–250). -/
def get_trade_recommendation (score : ℚ) (details : List Label) (vix_blocked : Bool) : TradeRec :=
  if vix_blocked then blockedRec
  else
    let bullish := bullCount details
    let bearish := bearCount details
    if ((bullish : ℤ) - (bearish : ℤ)).natAbs ≤ 1 ∨ score < 65 then flatRec
    else
      let direction := if bearish < bullish then "PUT side (Bullish)" else "CALL side (Bearish)"
      if 80 ≤ score then strongRec direction
      else decentRec direction

/-- The raw inputs of one scoring run (spec `IndicatorSnapshot`): VIX, the
ten basket percent changes, the put/call OI ratio, the manually entered
advance/decline counts, and the ten sector percent changes. -/
structure IndicatorSnapshot where
  vix : Option ℚ
  top10 : List (Option ℚ)
  oi_ratio : Option ℚ
  advances : ℕ
  declines : ℕ
  sectors : List (Option ℚ)

/-- The values one press of "Calculate Sentiment" computes
(app.py 424–431 and 473): all factor outputs, the final score and the
trade recommendation. -/
structure ScoreRun where
  vix_adj : ℚ
  vix_label : Label
  vix_blocked : Bool
  s_nifty : ℚ
  l_nifty : Label
  n_up : ℕ
  n_down : ℕ
  s_oi : ℚ
  l_oi : Label
  s_adv : ℚ
  l_adv : Label
  s_sec : ℚ
  l_sec : Label
  sec_up : ℕ
  sec_down : ℕ
  final_score : ℚ
  trade : TradeRec

/-- The scoring pipeline of `render_live_scoring` (app.py 424–431, 473):
score every factor, aggregate
`final_score = max(0, s_nifty + s_oi + s_adv + s_sec + (vix_adj if not vix_blocked else 0))`,
and derive the recommendation from the four additive factor labels. -/
def runScoring (flog : ℚ → ℚ) (snap : IndicatorSnapshot) : ScoreRun :=
  let v := score_vix snap.vix
  let vix_blocked : Bool := decide (v.1 = -999)
  let n := score_nifty_breadth snap.top10
  let o := score_oi_ratio snap.oi_ratio
  let a := score_adv_dec flog snap.advances snap.declines
  let s := score_sectors flog snap.sectors
  let final_score := max 0 (n.1 + o.1 + a.1 + s.1 + (if vix_blocked then 0 else v.1))
  let details := [n.2.1, o.2, a.2, s.2.1]
  { vix_adj := v.1, vix_label := v.2, vix_blocked := vix_blocked,
    s_nifty := n.1, l_nifty := n.2.1, n_up := n.2.2.1, n_down := n.2.2.2,
    s_oi := o.1, l_oi := o.2,
    s_adv := a.1, l_adv := a.2,
    s_sec := s.1, l_sec := s.2.1, sec_up := s.2.2.1, sec_down := s.2.2.2,
    final_score := final_score,
    trade := get_trade_recommendation final_score details vix_blocked }

/-- The four additive factor labels of a run, in the order the `details`
dict of app.py 433–438 iterates them. -/
def runDetails (r : ScoreRun) : List Label := [r.l_nifty, r.l_oi, r.l_adv, r.l_sec]

/-- The put/call ratio handed to the engine from raw open-interest totals
(app.py 691–694, mirroring the `call_oi == 0` guard of app.py 142–146):
defined only when both sides are positive. -/
def mk_oi_ratio (putOI callOI : ℕ) : Option ℚ :=
  if 0 < putOI ∧ 0 < callOI then some (round3 ((putOI : ℚ) / (callOI : ℚ))) else none

/-! ### Exception-aware variants: Python `/` and `math.log` can raise -/

/-- Python float division: raises `ZeroDivisionError` on a zero divisor. -/
def pyDiv (a b : ℚ) : Option ℚ := if b = 0 then none else some (a / b)

/-- Python `math.log`: raises `ValueError` on a non-positive argument. -/
def pyLog (flog : ℚ → ℚ) (q : ℚ) : Option ℚ := if 0 < q then some (flog q) else none

/-- `score_adv_dec` with its division and logarithm checked: `none` means the
Python code would have raised. -/
def score_adv_decE (flog : ℚ → ℚ) (advances declines : ℕ) : Option (ℚ × Label) :=
  if advances = 0 ∧ declines = 0 then some (10, ("10 Neutral".toList))
  else if declines = 0 then some (20, ("20 Bullish (all advances)".toList))
  else if advances = 0 then some (20, ("20 Bearish (all declines)".toList))
  else
    (pyDiv (advances : ℚ) (declines : ℚ)).bind fun r =>
      (pyLog flog r).bind fun lg =>
        let strength := min 1 |lg|
        let pts := round1 (strength * 20)
        if r > 11/10 then some (pts, advBullLabel pts advances declines)
        else if r < 9/10 then some (pts, advBearLabel pts advances declines)
        else some (10, advNeutLabel advances declines)

/-- `score_sectors` with its division and logarithm checked. -/
def score_sectorsE (flog : ℚ → ℚ) (sector_changes : List (Option ℚ)) :
    Option (ℚ × Label × ℕ × ℕ) :=
  let bull := upCount sector_changes
  let bear := downCount sector_changes
  if bull + bear = 0 then some (10, ("10 Neutral".toList), bull, bear)
  else if 0 < bull ∧ 0 < bear then
    (pyDiv (bull : ℚ) (bear : ℚ)).bind fun r =>
      (pyLog flog r).bind fun lg =>
        let strength := min 1 |lg|
        let pts := round1 (strength * 20)
        if r > 11/10 then some (pts, secBullLabel pts bull bear, bull, bear)
        else if r < 9/10 then some (pts, secBearLabel pts bull bear, bull, bear)
        else some (10, secNeutLabel bull bear, bull, bear)
  else if bear < bull then some (20, secFlatBullLabel bull bear, bull, bear)
  else some (20, secFlatBearLabel bull bear, bull, bear)

/-- The whole pipeline with every fallible operation checked. -/
def runScoringE (flog : ℚ → ℚ) (snap : IndicatorSnapshot) : Option ScoreRun :=
  (score_adv_decE flog snap.advances snap.declines).bind fun _ =>
    (score_sectorsE flog snap.sectors).bind fun _ =>
      some (runScoring flog snap)

/-- The put/call ratio construction with the division checked. -/
def mk_oi_ratioE (putOI callOI : ℕ) : Option ℚ :=
  if 0 < putOI ∧ 0 < callOI then (pyDiv (putOI : ℚ) (callOI : ℚ)).map round3 else none

/-! ### Specification-side definitions (spec.md §4.2), with typed directions -/

/-- Spec `FactorResult.direction`. -/
inductive FactorDir where
  | Bullish
  | Bearish
  | Neutral
  | Unknown
deriving DecidableEq

/-- The direction the engine reads off a label by substring matching:
`Bullish` if the label contains "Bullish", `Bearish` if it contains
"Bearish", else `Neutral`. -/
def dirOfLabel (l : Label) : FactorDir :=
  if pyIn ("Bullish".toList) l then .Bullish
  else if pyIn ("Bearish".toList) l then .Bearish
  else .Neutral

/-- Modelled from the spec (§4.2, basket breadth): the points/direction table
over the breadth counts.  `(up/10)×30` is written as stated. -/
def specBasket (up down : ℕ) : ℚ × FactorDir :=
  if up = 0 ∧ down = 0 then (15, .Neutral)
  else if 6 ≤ up then ((up : ℚ) / 10 * 30, .Bullish)
  else if 6 ≤ down then ((down : ℚ) / 10 * 30, .Bearish)
  else (15, .Neutral)

/-- Modelled from the spec (§4.2, open-interest ratio), amended with the
one-decimal rounding the code applies to the points. -/
def specOi : Option ℚ → ℚ × FactorDir
  | none => (15, .Neutral)
  | some r =>
    if r > 1 then (round1 (min 30 ((r - 1) * 30 + 15)), .Bullish)
    else if r < 7/10 then (round1 (min 30 ((1 - r) * 30 + 15)), .Bearish)
    else (15, .Neutral)

/-- Modelled from the spec (§4.2, advance/decline), amended with the
one-decimal rounding the code applies to the points; `flog` stands for the
float natural logarithm. -/
def specAdvDec (flog : ℚ → ℚ) (advances declines : ℕ) : ℚ × FactorDir :=
  if advances = 0 ∧ declines = 0 then (10, .Neutral)
  else if declines = 0 ∧ 0 < advances then (20, .Bullish)
  else if advances = 0 ∧ 0 < declines then (20, .Bearish)
  else
    let r : ℚ := (advances : ℚ) / (declines : ℚ)
    let strength := min 1 |flog r|
    if r > 11/10 then (round1 (strength * 20), .Bullish)
    else if r < 9/10 then (round1 (strength * 20), .Bearish)
    else (10, .Neutral)

/-- Modelled from the spec (§4.2, sector breadth), amended with the
one-decimal rounding the code applies to the log-scaled points. -/
def specSectors (flog : ℚ → ℚ) (bull bear : ℕ) : ℚ × FactorDir :=
  if bull = 0 ∧ bear = 0 then (10, .Neutral)
  else if 0 < bull ∧ 0 < bear then
    let r : ℚ := (bull : ℚ) / (bear : ℚ)
    let strength := min 1 |flog r|
    if r > 11/10 then (round1 (strength * 20), .Bullish)
    else if r < 9/10 then (round1 (strength * 20), .Bearish)
    else (10, .Neutral)
  else if 0 < bull then (20, .Bullish)
  else (20, .Bearish)

/-- The typed directions of the four additive factors of a snapshot, in
report order. -/
def factorDirs (flog : ℚ → ℚ) (snap : IndicatorSnapshot) : List FactorDir :=
  [(specBasket (upCount snap.top10) (downCount snap.top10)).2,
   (specOi snap.oi_ratio).2,
   (specAdvDec flog snap.advances snap.declines).2,
   (specSectors flog (upCount snap.sectors) (downCount snap.sectors)).2]

/-! ### Concrete values used by witnesses and counterexamples -/

/-- A stand-in for `math.log` used by closed statements; constantly
`0.405465` (the IEEE value of `math.log(1.5)` to six decimals). -/
def flogW : ℚ → ℚ := fun _ => 405465 / 1000000

/-- A logarithm stand-in that is zero everywhere (only branches that never
evaluate the logarithm are exercised with it). -/
def flog0 : ℚ → ℚ := fun _ => 0

/-- The all-missing snapshot: every fetch failed and nothing was entered. -/
def emptySnap : IndicatorSnapshot :=
  ⟨none, List.replicate 10 none, none, 0, 0, List.replicate 10 none⟩

/-- A snapshot with VIX 25 (blocked zone) and strongly bullish factors. -/
def snapBlocked : IndicatorSnapshot :=
  ⟨some 25, List.replicate 10 (some 1), some 2, 30, 5, List.replicate 10 (some 1)⟩

/-- A snapshot with a safe VIX of 12, all ten basket stocks up, a neutral
OI ratio, no advance/decline data and no sector data. -/
def snapFlat : IndicatorSnapshot :=
  ⟨some 12, List.replicate 10 (some 1), some 1, 0, 0, List.replicate 10 none⟩

/-- Sector changes with five rising sectors and five unchanged ones:
bull count 5, bear count 0. -/
def secWitList : List (Option ℚ) :=
  List.replicate 5 (some 1) ++ List.replicate 5 (some 0)

/-! ### Substring-test infrastructure -/

theorem pyIn_nil (l : List Char) : pyIn [] l = true := by
  induction l with
  | nil => rfl
  | cons c t ih => simp [pyIn, List.isPrefixOf]

theorem pyIn_subset {w l : List Char} (h : pyIn w l = true) : ∀ c ∈ w, c ∈ l := by
  induction l with
  | nil =>
    intro c hc
    simp only [pyIn, List.isEmpty_iff] at h
    subst h
    simp at hc
  | cons x t ih =>
    intro c hc
    rw [pyIn, Bool.or_eq_true] at h
    rcases h with h | h
    · rw [List.isPrefixOf_iff_prefix] at h
      exact h.subset hc
    · exact List.mem_cons_of_mem x (ih h c hc)

theorem pyIn_eq_false_of_not_mem {w l : List Char} {c : Char} (hcw : c ∈ w) (hcl : c ∉ l) :
    pyIn w l = false := by
  cases h : pyIn w l
  · rfl
  · exact absurd (pyIn_subset h c hcw) hcl

theorem not_mem_append {c : Char} {xs ys : List Char} (hx : c ∉ xs) (hy : c ∉ ys) :
    c ∉ xs ++ ys := by
  rw [List.mem_append]
  rintro (h | h)
  · exact hx h
  · exact hy h

theorem pyIn_append_right {w : List Char} (xs : List Char) {ys : List Char}
    (h : pyIn w ys = true) : pyIn w (xs ++ ys) = true := by
  induction xs with
  | nil => simpa using h
  | cons x t ih =>
    rw [List.cons_append, pyIn, Bool.or_eq_true]
    exact Or.inr ih

theorem isPrefixOf_append {w xs : List Char} (ys : List Char) (h : w.isPrefixOf xs = true) :
    w.isPrefixOf (xs ++ ys) = true := by
  rw [List.isPrefixOf_iff_prefix] at h ⊢
  exact h.trans (List.prefix_append xs ys)

theorem pyIn_append_left {w xs : List Char} (ys : List Char) (h : pyIn w xs = true) :
    pyIn w (xs ++ ys) = true := by
  induction xs with
  | nil =>
    have hw : w = [] := by simpa [pyIn, List.isEmpty_iff] using h
    subst hw
    simpa using pyIn_nil ys
  | cons x t ih =>
    rw [pyIn, Bool.or_eq_true] at h
    rw [List.cons_append, pyIn, Bool.or_eq_true]
    rcases h with h | h
    · refine Or.inl ?_
      rw [← List.cons_append]
      exact isPrefixOf_append ys h
    · exact Or.inr (ih h)

/-! ### The alphabet of rendered numbers -/

theorem digitChar_mem (n : ℕ) : digitChar n ∈ numAlphabet := by
  unfold digitChar
  repeat' split
  all_goals decide

theorem natChars_mem (n : ℕ) : ∀ c ∈ natChars n, c ∈ numAlphabet := by
  induction n using Nat.strong_induction_on with
  | _ n ih =>
    intro c hc
    unfold natChars at hc
    split at hc
    · simp only [List.mem_singleton] at hc
      subst hc
      exact digitChar_mem n
    · rw [List.mem_append] at hc
      rcases hc with hc | hc
      · exact ih (n / 10) (Nat.div_lt_self (by omega) (by omega)) c hc
      · simp only [List.mem_singleton] at hc
        subst hc
        exact digitChar_mem (n % 10)

theorem intChars_mem (i : ℤ) : ∀ c ∈ intChars i, c ∈ numAlphabet := by
  intro c hc
  unfold intChars at hc
  split at hc
  · rcases List.mem_cons.mp hc with hc | hc
    · subst hc; decide
    · exact natChars_mem _ c hc
  · exact natChars_mem _ c hc

theorem ratChars_mem (q : ℚ) : ∀ c ∈ ratChars q, c ∈ numAlphabet := by
  intro c hc
  unfold ratChars at hc
  rw [List.mem_append] at hc
  rcases hc with hc | hc
  · exact intChars_mem _ c hc
  · rcases List.mem_cons.mp hc with hc | hc
    · subst hc; decide
    · exact natChars_mem _ c hc

theorem not_mem_ratChars {c : Char} (q : ℚ) (hc : c ∉ numAlphabet) : c ∉ ratChars q :=
  fun h => hc (ratChars_mem q c h)

theorem not_mem_natChars {c : Char} (n : ℕ) (hc : c ∉ numAlphabet) : c ∉ natChars n :=
  fun h => hc (natChars_mem n c h)

/-! ### Rounding lemmas -/

theorem round1_le_ofInt (q : ℚ) (m : ℤ) (h : q ≤ (m : ℚ)) : round1 q ≤ (m : ℚ) := by
  unfold round1
  rw [div_le_iff₀ (by norm_num : (0:ℚ) < 10)]
  have h0 : ⌊(1:ℚ)/2⌋ = 0 := by
    rw [show (1:ℚ)/2 = ((1:ℤ):ℚ)/((2:ℕ):ℚ) by norm_num, Rat.floor_intCast_div_natCast]
    decide
  have h1 : round (q * 10) ≤ 10 * m := by
    rw [round_eq]
    have h2 : q * 10 + 1/2 ≤ 1/2 + ((10 * m : ℤ) : ℚ) := by push_cast; linarith
    have h3 := Int.floor_le_floor h2
    rwa [Int.floor_add_int, h0, zero_add] at h3
  calc ((round (q * 10) : ℤ) : ℚ) ≤ ((10 * m : ℤ) : ℚ) := by exact_mod_cast h1
    _ = (m : ℚ) * 10 := by push_cast; ring

theorem round1_intCast (m : ℤ) : round1 ((m : ℚ)) = (m : ℚ) := by
  unfold round1
  have h : (m : ℚ) * 10 = ((10 * m : ℤ) : ℚ) := by push_cast; ring
  rw [h, round_intCast]
  push_cast
  ring

theorem round1_natCast (n : ℕ) : round1 ((n : ℚ)) = (n : ℚ) := by
  simpa using round1_intCast (n : ℤ)

theorem round1_eq_of {q : ℚ} (m : ℤ) (h1 : (m : ℚ) ≤ q * 10 + 1/2) (h2 : q * 10 + 1/2 < (m : ℚ) + 1) :
    round1 q = (m : ℚ) / 10 := by
  unfold round1
  rw [round_eq]
  have hf : ⌊q * 10 + 1/2⌋ = m := by
    rw [Int.floor_eq_iff]
    · exact ⟨h1, h2⟩
  rw [hf]

/-! ### Which direction words occur in which labels -/

theorem bull_in_niftyBull (p : ℚ) (u : ℕ) : pyIn ("Bullish".toList) (niftyBullLabel p u) = true := by
  unfold niftyBullLabel
  exact pyIn_append_right _ (pyIn_append_left _ (by decide))

theorem bear_notin_niftyBull (p : ℚ) (u : ℕ) : pyIn ("Bearish".toList) (niftyBullLabel p u) = false := by
  refine pyIn_eq_false_of_not_mem (c := 'e') (by decide) ?_
  unfold niftyBullLabel
  exact not_mem_append (not_mem_ratChars p (by decide))
    (not_mem_append (by decide)
      (not_mem_append (not_mem_natChars u (by decide)) (by decide)))

theorem bear_in_niftyBear (p : ℚ) (d : ℕ) : pyIn ("Bearish".toList) (niftyBearLabel p d) = true := by
  unfold niftyBearLabel
  exact pyIn_append_right _ (pyIn_append_left _ (by decide))

theorem bull_notin_niftyBear (p : ℚ) (d : ℕ) : pyIn ("Bullish".toList) (niftyBearLabel p d) = false := by
  refine pyIn_eq_false_of_not_mem (c := 'u') (by decide) ?_
  unfold niftyBearLabel
  exact not_mem_append (not_mem_ratChars p (by decide))
    (not_mem_append (by decide)
      (not_mem_append (not_mem_natChars d (by decide)) (by decide)))

theorem bull_notin_niftyNeut (u d : ℕ) : pyIn ("Bullish".toList) (niftyNeutLabel u d) = false := by
  refine pyIn_eq_false_of_not_mem (c := 'B') (by decide) ?_
  unfold niftyNeutLabel
  exact not_mem_append (by decide)
    (not_mem_append (not_mem_natChars u (by decide))
      (not_mem_append (by decide)
        (not_mem_append (not_mem_natChars d (by decide)) (by decide))))

theorem bear_notin_niftyNeut (u d : ℕ) : pyIn ("Bearish".toList) (niftyNeutLabel u d) = false := by
  refine pyIn_eq_false_of_not_mem (c := 'B') (by decide) ?_
  unfold niftyNeutLabel
  exact not_mem_append (by decide)
    (not_mem_append (not_mem_natChars u (by decide))
      (not_mem_append (by decide)
        (not_mem_append (not_mem_natChars d (by decide)) (by decide))))

theorem bull_in_oiBull (p r : ℚ) : pyIn ("Bullish".toList) (oiBullLabel p r) = true := by
  unfold oiBullLabel
  exact pyIn_append_right _ (pyIn_append_left _ (by decide))

theorem bear_notin_oiBull (p r : ℚ) : pyIn ("Bearish".toList) (oiBullLabel p r) = false := by
  refine pyIn_eq_false_of_not_mem (c := 'e') (by decide) ?_
  unfold oiBullLabel
  exact not_mem_append (not_mem_ratChars p (by decide))
    (not_mem_append (by decide)
      (not_mem_append (not_mem_ratChars r (by decide)) (by decide)))

theorem bear_in_oiBear (p r : ℚ) : pyIn ("Bearish".toList) (oiBearLabel p r) = true := by
  unfold oiBearLabel
  exact pyIn_append_right _ (pyIn_append_left _ (by decide))

theorem bull_notin_oiBear (p r : ℚ) : pyIn ("Bullish".toList) (oiBearLabel p r) = false := by
  refine pyIn_eq_false_of_not_mem (c := 'u') (by decide) ?_
  unfold oiBearLabel
  exact not_mem_append (not_mem_ratChars p (by decide))
    (not_mem_append (by decide)
      (not_mem_append (not_mem_ratChars r (by decide)) (by decide)))

theorem bull_notin_oiNeut (r : ℚ) : pyIn ("Bullish".toList) (oiNeutLabel r) = false := by
  refine pyIn_eq_false_of_not_mem (c := 'B') (by decide) ?_
  unfold oiNeutLabel
  exact not_mem_append (by decide)
    (not_mem_append (not_mem_ratChars r (by decide)) (by decide))

theorem bear_notin_oiNeut (r : ℚ) : pyIn ("Bearish".toList) (oiNeutLabel r) = false := by
  refine pyIn_eq_false_of_not_mem (c := 'B') (by decide) ?_
  unfold oiNeutLabel
  exact not_mem_append (by decide)
    (not_mem_append (not_mem_ratChars r (by decide)) (by decide))

theorem bull_in_advBull (p : ℚ) (a d : ℕ) : pyIn ("Bullish".toList) (advBullLabel p a d) = true := by
  unfold advBullLabel
  exact pyIn_append_right _ (pyIn_append_left _ (by decide))

theorem bear_notin_advBull (p : ℚ) (a d : ℕ) : pyIn ("Bearish".toList) (advBullLabel p a d) = false := by
  refine pyIn_eq_false_of_not_mem (c := 'e') (by decide) ?_
  unfold advBullLabel
  exact not_mem_append (not_mem_ratChars p (by decide))
    (not_mem_append (by decide)
      (not_mem_append (not_mem_natChars a (by decide))
        (not_mem_append (by decide)
          (not_mem_append (not_mem_natChars d (by decide)) (by decide)))))

theorem bear_in_advBear (p : ℚ) (a d : ℕ) : pyIn ("Bearish".toList) (advBearLabel p a d) = true := by
  unfold advBearLabel
  exact pyIn_append_right _ (pyIn_append_left _ (by decide))

theorem bull_notin_advBear (p : ℚ) (a d : ℕ) : pyIn ("Bullish".toList) (advBearLabel p a d) = false := by
  refine pyIn_eq_false_of_not_mem (c := 'u') (by decide) ?_
  unfold advBearLabel
  exact not_mem_append (not_mem_ratChars p (by decide))
    (not_mem_append (by decide)
      (not_mem_append (not_mem_natChars a (by decide))
        (not_mem_append (by decide)
          (not_mem_append (not_mem_natChars d (by decide)) (by decide)))))

theorem bull_notin_advNeut (a d : ℕ) : pyIn ("Bullish".toList) (advNeutLabel a d) = false := by
  refine pyIn_eq_false_of_not_mem (c := 'B') (by decide) ?_
  unfold advNeutLabel
  exact not_mem_append (by decide)
    (not_mem_append (not_mem_natChars a (by decide))
      (not_mem_append (by decide)
        (not_mem_append (not_mem_natChars d (by decide)) (by decide))))

theorem bear_notin_advNeut (a d : ℕ) : pyIn ("Bearish".toList) (advNeutLabel a d) = false := by
  refine pyIn_eq_false_of_not_mem (c := 'B') (by decide) ?_
  unfold advNeutLabel
  exact not_mem_append (by decide)
    (not_mem_append (not_mem_natChars a (by decide))
      (not_mem_append (by decide)
        (not_mem_append (not_mem_natChars d (by decide)) (by decide))))

theorem bull_in_secBull (p : ℚ) (b r : ℕ) : pyIn ("Bullish".toList) (secBullLabel p b r) = true := by
  unfold secBullLabel
  exact pyIn_append_right _ (pyIn_append_left _ (by decide))

theorem bear_notin_secBull (p : ℚ) (b r : ℕ) : pyIn ("Bearish".toList) (secBullLabel p b r) = false := by
  refine pyIn_eq_false_of_not_mem (c := 'e') (by decide) ?_
  unfold secBullLabel
  exact not_mem_append (not_mem_ratChars p (by decide))
    (not_mem_append (by decide)
      (not_mem_append (not_mem_natChars b (by decide))
        (not_mem_append (by decide)
          (not_mem_append (not_mem_natChars r (by decide)) (by decide)))))

theorem bear_in_secBear (p : ℚ) (b r : ℕ) : pyIn ("Bearish".toList) (secBearLabel p b r) = true := by
  unfold secBearLabel
  exact pyIn_append_right _ (pyIn_append_left _ (by decide))

theorem bull_notin_secBear (p : ℚ) (b r : ℕ) : pyIn ("Bullish".toList) (secBearLabel p b r) = false := by
  refine pyIn_eq_false_of_not_mem (c := 'u') (by decide) ?_
  unfold secBearLabel
  exact not_mem_append (not_mem_ratChars p (by decide))
    (not_mem_append (by decide)
      (not_mem_append (not_mem_natChars b (by decide))
        (not_mem_append (by decide)
          (not_mem_append (not_mem_natChars r (by decide)) (by decide)))))

theorem bull_notin_secNeut (b r : ℕ) : pyIn ("Bullish".toList) (secNeutLabel b r) = false := by
  refine pyIn_eq_false_of_not_mem (c := 'B') (by decide) ?_
  unfold secNeutLabel
  exact not_mem_append (by decide)
    (not_mem_append (not_mem_natChars b (by decide))
      (not_mem_append (by decide)
        (not_mem_append (not_mem_natChars r (by decide)) (by decide))))

theorem bear_notin_secNeut (b r : ℕ) : pyIn ("Bearish".toList) (secNeutLabel b r) = false := by
  refine pyIn_eq_false_of_not_mem (c := 'B') (by decide) ?_
  unfold secNeutLabel
  exact not_mem_append (by decide)
    (not_mem_append (not_mem_natChars b (by decide))
      (not_mem_append (by decide)
        (not_mem_append (not_mem_natChars r (by decide)) (by decide))))

theorem bull_in_secFlatBull (b r : ℕ) : pyIn ("Bullish".toList) (secFlatBullLabel b r) = true := by
  unfold secFlatBullLabel
  exact pyIn_append_left _ (by decide)

theorem bear_notin_secFlatBull (b r : ℕ) : pyIn ("Bearish".toList) (secFlatBullLabel b r) = false := by
  refine pyIn_eq_false_of_not_mem (c := 'e') (by decide) ?_
  unfold secFlatBullLabel
  exact not_mem_append (by decide)
    (not_mem_append (not_mem_natChars b (by decide))
      (not_mem_append (by decide)
        (not_mem_append (not_mem_natChars r (by decide)) (by decide))))

theorem bear_in_secFlatBear (b r : ℕ) : pyIn ("Bearish".toList) (secFlatBearLabel b r) = true := by
  unfold secFlatBearLabel
  exact pyIn_append_left _ (by decide)

theorem bull_notin_secFlatBear (b r : ℕ) : pyIn ("Bullish".toList) (secFlatBearLabel b r) = false := by
  refine pyIn_eq_false_of_not_mem (c := 'u') (by decide) ?_
  unfold secFlatBearLabel
  exact not_mem_append (by decide)
    (not_mem_append (not_mem_natChars b (by decide))
      (not_mem_append (by decide)
        (not_mem_append (not_mem_natChars r (by decide)) (by decide))))

/-! ### Per-scorer refinement lemmas -/

theorem round1_thirty (n : ℕ) : round1 ((n : ℚ) / 10 * 30) = (n : ℚ) / 10 * 30 := by
  have h : (n : ℚ) / 10 * 30 = ((3 * n : ℕ) : ℚ) := by push_cast; ring
  rw [h, round1_natCast]

theorem nifty_report (changes : List (Option ℚ)) :
    (score_nifty_breadth changes).1 = (specBasket (upCount changes) (downCount changes)).1
  ∧ pyIn ("Bullish".toList) (score_nifty_breadth changes).2.1
      = decide ((specBasket (upCount changes) (downCount changes)).2 = FactorDir.Bullish)
  ∧ pyIn ("Bearish".toList) (score_nifty_breadth changes).2.1
      = decide ((specBasket (upCount changes) (downCount changes)).2 = FactorDir.Bearish)
  ∧ dirOfLabel (score_nifty_breadth changes).2.1
      = (specBasket (upCount changes) (downCount changes)).2
  ∧ (score_nifty_breadth changes).2.2.1 = upCount changes
  ∧ (score_nifty_breadth changes).2.2.2 = downCount changes := by
  by_cases h0 : upCount changes + downCount changes = 0
  · have hb : score_nifty_breadth changes
        = (15, ("15 Neutral".toList), upCount changes, downCount changes) := by
      simp only [score_nifty_breadth]
      rw [if_pos h0]
    have hs : specBasket (upCount changes) (downCount changes) = (15, FactorDir.Neutral) := by
      simp only [specBasket]
      rw [if_pos (by omega : upCount changes = 0 ∧ downCount changes = 0)]
    rw [hb, hs]
    exact ⟨rfl, rfl, rfl, rfl, rfl, rfl⟩
  · by_cases h6 : 6 ≤ upCount changes
    · have hb : score_nifty_breadth changes
          = (round1 ((upCount changes : ℚ) / 10 * 30),
             niftyBullLabel (round1 ((upCount changes : ℚ) / 10 * 30)) (upCount changes),
             upCount changes, downCount changes) := by
        simp only [score_nifty_breadth]
        rw [if_neg h0, if_pos h6]
      have hs : specBasket (upCount changes) (downCount changes)
          = ((upCount changes : ℚ) / 10 * 30, FactorDir.Bullish) := by
        simp only [specBasket]
        rw [if_neg (by omega : ¬(upCount changes = 0 ∧ downCount changes = 0)), if_pos h6]
      rw [hb, hs]
      refine ⟨round1_thirty _, ?_, ?_, ?_, rfl, rfl⟩
      · rw [bull_in_niftyBull]; rfl
      · rw [bear_notin_niftyBull]; rfl
      · unfold dirOfLabel
        rw [bull_in_niftyBull]
        simp
    · by_cases h6d : 6 ≤ downCount changes
      · have hb : score_nifty_breadth changes
            = (round1 ((downCount changes : ℚ) / 10 * 30),
               niftyBearLabel (round1 ((downCount changes : ℚ) / 10 * 30)) (downCount changes),
               upCount changes, downCount changes) := by
          simp only [score_nifty_breadth]
          rw [if_neg h0, if_neg h6, if_pos h6d]
        have hs : specBasket (upCount changes) (downCount changes)
            = ((downCount changes : ℚ) / 10 * 30, FactorDir.Bearish) := by
          simp only [specBasket]
          rw [if_neg (by omega : ¬(upCount changes = 0 ∧ downCount changes = 0)),
            if_neg h6, if_pos h6d]
        rw [hb, hs]
        refine ⟨round1_thirty _, ?_, ?_, ?_, rfl, rfl⟩
        · rw [bull_notin_niftyBear]; rfl
        · rw [bear_in_niftyBear]; rfl
        · unfold dirOfLabel
          rw [bull_notin_niftyBear, bear_in_niftyBear]
          simp
      · have hb : score_nifty_breadth changes
            = (15, niftyNeutLabel (upCount changes) (downCount changes),
               upCount changes, downCount changes) := by
          simp only [score_nifty_breadth]
          rw [if_neg h0, if_neg h6, if_neg h6d]
        have hs : specBasket (upCount changes) (downCount changes) = (15, FactorDir.Neutral) := by
          simp only [specBasket]
          rw [if_neg (by omega : ¬(upCount changes = 0 ∧ downCount changes = 0)),
            if_neg h6, if_neg h6d]
        rw [hb, hs]
        refine ⟨rfl, ?_, ?_, ?_, rfl, rfl⟩
        · rw [bull_notin_niftyNeut]; rfl
        · rw [bear_notin_niftyNeut]; rfl
        · unfold dirOfLabel
          rw [bull_notin_niftyNeut, bear_notin_niftyNeut]
          simp

theorem oi_report (oiv : Option ℚ) :
    (score_oi_ratio oiv).1 = (specOi oiv).1
  ∧ pyIn ("Bullish".toList) (score_oi_ratio oiv).2 = decide ((specOi oiv).2 = FactorDir.Bullish)
  ∧ pyIn ("Bearish".toList) (score_oi_ratio oiv).2 = decide ((specOi oiv).2 = FactorDir.Bearish)
  ∧ dirOfLabel (score_oi_ratio oiv).2 = (specOi oiv).2 := by
  match oiv with
  | none => exact ⟨rfl, rfl, rfl, rfl⟩
  | some r =>
    by_cases h1 : r > 1
    · have hb : score_oi_ratio (some r)
          = (round1 (min 30 ((r - 1) * 30 + 15)),
             oiBullLabel (round1 (min 30 ((r - 1) * 30 + 15))) r) := by
        simp only [score_oi_ratio]
        rw [if_pos h1]
      have hs : specOi (some r) = (round1 (min 30 ((r - 1) * 30 + 15)), FactorDir.Bullish) := by
        simp only [specOi]
        rw [if_pos h1]
      rw [hb, hs]
      refine ⟨rfl, ?_, ?_, ?_⟩
      · rw [bull_in_oiBull]; rfl
      · rw [bear_notin_oiBull]; rfl
      · unfold dirOfLabel
        rw [bull_in_oiBull]
        simp
    · by_cases h7 : r < 7/10
      · have hb : score_oi_ratio (some r)
            = (round1 (min 30 ((1 - r) * 30 + 15)),
               oiBearLabel (round1 (min 30 ((1 - r) * 30 + 15))) r) := by
          simp only [score_oi_ratio]
          rw [if_neg h1, if_pos h7]
        have hs : specOi (some r) = (round1 (min 30 ((1 - r) * 30 + 15)), FactorDir.Bearish) := by
          simp only [specOi]
          rw [if_neg h1, if_pos h7]
        rw [hb, hs]
        refine ⟨rfl, ?_, ?_, ?_⟩
        · rw [bull_notin_oiBear]; rfl
        · rw [bear_in_oiBear]; rfl
        · unfold dirOfLabel
          rw [bull_notin_oiBear, bear_in_oiBear]
          simp
      · have hb : score_oi_ratio (some r) = (15, oiNeutLabel r) := by
          simp only [score_oi_ratio]
          rw [if_neg h1, if_neg h7]
        have hs : specOi (some r) = (15, FactorDir.Neutral) := by
          simp only [specOi]
          rw [if_neg h1, if_neg h7]
        rw [hb, hs]
        refine ⟨rfl, ?_, ?_, ?_⟩
        · rw [bull_notin_oiNeut]; rfl
        · rw [bear_notin_oiNeut]; rfl
        · unfold dirOfLabel
          rw [bull_notin_oiNeut, bear_notin_oiNeut]
          simp

theorem adv_report (flog : ℚ → ℚ) (a d : ℕ) :
    (score_adv_dec flog a d).1 = (specAdvDec flog a d).1
  ∧ pyIn ("Bullish".toList) (score_adv_dec flog a d).2
      = decide ((specAdvDec flog a d).2 = FactorDir.Bullish)
  ∧ pyIn ("Bearish".toList) (score_adv_dec flog a d).2
      = decide ((specAdvDec flog a d).2 = FactorDir.Bearish)
  ∧ dirOfLabel (score_adv_dec flog a d).2 = (specAdvDec flog a d).2 := by
  by_cases h0 : a = 0 ∧ d = 0
  · have hb : score_adv_dec flog a d = (10, ("10 Neutral".toList)) := by
      simp only [score_adv_dec]
      rw [if_pos h0]
    have hs : specAdvDec flog a d = (10, FactorDir.Neutral) := by
      simp only [specAdvDec]
      rw [if_pos h0]
    rw [hb, hs]
    exact ⟨rfl, rfl, rfl, rfl⟩
  · by_cases hd : d = 0
    · have hb : score_adv_dec flog a d = (20, ("20 Bullish (all advances)".toList)) := by
        simp only [score_adv_dec]
        rw [if_neg h0, if_pos hd]
      have hs : specAdvDec flog a d = (20, FactorDir.Bullish) := by
        simp only [specAdvDec]
        rw [if_neg h0, if_pos ⟨hd, by omega⟩]
      rw [hb, hs]
      exact ⟨rfl, rfl, rfl, rfl⟩
    · by_cases ha : a = 0
      · have hb : score_adv_dec flog a d = (20, ("20 Bearish (all declines)".toList)) := by
          simp only [score_adv_dec]
          rw [if_neg h0, if_neg hd, if_pos ha]
        have hs : specAdvDec flog a d = (20, FactorDir.Bearish) := by
          simp only [specAdvDec]
          rw [if_neg h0, if_neg (by omega : ¬(d = 0 ∧ 0 < a)), if_pos ⟨ha, by omega⟩]
        rw [hb, hs]
        exact ⟨rfl, rfl, rfl, rfl⟩
      · by_cases hr1 : (a : ℚ) / (d : ℚ) > 11/10
        · have hb : score_adv_dec flog a d
              = (round1 (min 1 |flog ((a : ℚ) / (d : ℚ))| * 20),
                 advBullLabel (round1 (min 1 |flog ((a : ℚ) / (d : ℚ))| * 20)) a d) := by
            simp only [score_adv_dec]
            rw [if_neg h0, if_neg hd, if_neg ha, if_pos hr1]
          have hs : specAdvDec flog a d
              = (round1 (min 1 |flog ((a : ℚ) / (d : ℚ))| * 20), FactorDir.Bullish) := by
            simp only [specAdvDec]
            rw [if_neg h0, if_neg (by omega : ¬(d = 0 ∧ 0 < a)),
              if_neg (by omega : ¬(a = 0 ∧ 0 < d)), if_pos hr1]
          rw [hb, hs]
          refine ⟨rfl, ?_, ?_, ?_⟩
          · rw [bull_in_advBull]; rfl
          · rw [bear_notin_advBull]; rfl
          · unfold dirOfLabel
            rw [bull_in_advBull]
            simp
        · by_cases hr2 : (a : ℚ) / (d : ℚ) < 9/10
          · have hb : score_adv_dec flog a d
                = (round1 (min 1 |flog ((a : ℚ) / (d : ℚ))| * 20),
                   advBearLabel (round1 (min 1 |flog ((a : ℚ) / (d : ℚ))| * 20)) a d) := by
              simp only [score_adv_dec]
              rw [if_neg h0, if_neg hd, if_neg ha, if_neg hr1, if_pos hr2]
            have hs : specAdvDec flog a d
                = (round1 (min 1 |flog ((a : ℚ) / (d : ℚ))| * 20), FactorDir.Bearish) := by
              simp only [specAdvDec]
              rw [if_neg h0, if_neg (by omega : ¬(d = 0 ∧ 0 < a)),
                if_neg (by omega : ¬(a = 0 ∧ 0 < d)), if_neg hr1, if_pos hr2]
            rw [hb, hs]
            refine ⟨rfl, ?_, ?_, ?_⟩
            · rw [bull_notin_advBear]; rfl
            · rw [bear_in_advBear]; rfl
            · unfold dirOfLabel
              rw [bull_notin_advBear, bear_in_advBear]
              simp
          · have hb : score_adv_dec flog a d = (10, advNeutLabel a d) := by
              simp only [score_adv_dec]
              rw [if_neg h0, if_neg hd, if_neg ha, if_neg hr1, if_neg hr2]
            have hs : specAdvDec flog a d = (10, FactorDir.Neutral) := by
              simp only [specAdvDec]
              rw [if_neg h0, if_neg (by omega : ¬(d = 0 ∧ 0 < a)),
                if_neg (by omega : ¬(a = 0 ∧ 0 < d)), if_neg hr1, if_neg hr2]
            rw [hb, hs]
            refine ⟨rfl, ?_, ?_, ?_⟩
            · rw [bull_notin_advNeut]; rfl
            · rw [bear_notin_advNeut]; rfl
            · unfold dirOfLabel
              rw [bull_notin_advNeut, bear_notin_advNeut]
              simp

theorem sec_report (flog : ℚ → ℚ) (changes : List (Option ℚ)) :
    (score_sectors flog changes).1 = (specSectors flog (upCount changes) (downCount changes)).1
  ∧ pyIn ("Bullish".toList) (score_sectors flog changes).2.1
      = decide ((specSectors flog (upCount changes) (downCount changes)).2 = FactorDir.Bullish)
  ∧ pyIn ("Bearish".toList) (score_sectors flog changes).2.1
      = decide ((specSectors flog (upCount changes) (downCount changes)).2 = FactorDir.Bearish)
  ∧ dirOfLabel (score_sectors flog changes).2.1
      = (specSectors flog (upCount changes) (downCount changes)).2
  ∧ (score_sectors flog changes).2.2.1 = upCount changes
  ∧ (score_sectors flog changes).2.2.2 = downCount changes := by
  by_cases h0 : upCount changes + downCount changes = 0
  · have hb : score_sectors flog changes
        = (10, ("10 Neutral".toList), upCount changes, downCount changes) := by
      simp only [score_sectors]
      rw [if_pos h0]
    have hs : specSectors flog (upCount changes) (downCount changes) = (10, FactorDir.Neutral) := by
      simp only [specSectors]
      rw [if_pos (by omega : upCount changes = 0 ∧ downCount changes = 0)]
    rw [hb, hs]
    exact ⟨rfl, rfl, rfl, rfl, rfl, rfl⟩
  · by_cases hbb : 0 < upCount changes ∧ 0 < downCount changes
    · by_cases hr1 : (upCount changes : ℚ) / (downCount changes : ℚ) > 11/10
      · have hb : score_sectors flog changes
            = (round1 (min 1 |flog ((upCount changes : ℚ) / (downCount changes : ℚ))| * 20),
               secBullLabel
                 (round1 (min 1 |flog ((upCount changes : ℚ) / (downCount changes : ℚ))| * 20))
                 (upCount changes) (downCount changes),
               upCount changes, downCount changes) := by
          simp only [score_sectors]
          rw [if_neg h0, if_pos hbb, if_pos hr1]
        have hs : specSectors flog (upCount changes) (downCount changes)
            = (round1 (min 1 |flog ((upCount changes : ℚ) / (downCount changes : ℚ))| * 20),
               FactorDir.Bullish) := by
          simp only [specSectors]
          rw [if_neg (by omega : ¬(upCount changes = 0 ∧ downCount changes = 0)),
            if_pos hbb, if_pos hr1]
        rw [hb, hs]
        refine ⟨rfl, ?_, ?_, ?_, rfl, rfl⟩
        · rw [bull_in_secBull]; rfl
        · rw [bear_notin_secBull]; rfl
        · unfold dirOfLabel
          rw [bull_in_secBull]
          simp
      · by_cases hr2 : (upCount changes : ℚ) / (downCount changes : ℚ) < 9/10
        · have hb : score_sectors flog changes
              = (round1 (min 1 |flog ((upCount changes : ℚ) / (downCount changes : ℚ))| * 20),
                 secBearLabel
                   (round1 (min 1 |flog ((upCount changes : ℚ) / (downCount changes : ℚ))| * 20))
                   (upCount changes) (downCount changes),
                 upCount changes, downCount changes) := by
            simp only [score_sectors]
            rw [if_neg h0, if_pos hbb, if_neg hr1, if_pos hr2]
          have hs : specSectors flog (upCount changes) (downCount changes)
              = (round1 (min 1 |flog ((upCount changes : ℚ) / (downCount changes : ℚ))| * 20),
                 FactorDir.Bearish) := by
            simp only [specSectors]
            rw [if_neg (by omega : ¬(upCount changes = 0 ∧ downCount changes = 0)),
              if_pos hbb, if_neg hr1, if_pos hr2]
          rw [hb, hs]
          refine ⟨rfl, ?_, ?_, ?_, rfl, rfl⟩
          · rw [bull_notin_secBear]; rfl
          · rw [bear_in_secBear]; rfl
          · unfold dirOfLabel
            rw [bull_notin_secBear, bear_in_secBear]
            simp
        · have hb : score_sectors flog changes
              = (10, secNeutLabel (upCount changes) (downCount changes),
                 upCount changes, downCount changes) := by
            simp only [score_sectors]
            rw [if_neg h0, if_pos hbb, if_neg hr1, if_neg hr2]
          have hs : specSectors flog (upCount changes) (downCount changes)
              = (10, FactorDir.Neutral) := by
            simp only [specSectors]
            rw [if_neg (by omega : ¬(upCount changes = 0 ∧ downCount changes = 0)),
              if_pos hbb, if_neg hr1, if_neg hr2]
          rw [hb, hs]
          refine ⟨rfl, ?_, ?_, ?_, rfl, rfl⟩
          · rw [bull_notin_secNeut]; rfl
          · rw [bear_notin_secNeut]; rfl
          · unfold dirOfLabel
            rw [bull_notin_secNeut, bear_notin_secNeut]
            simp
    · by_cases hlt : downCount changes < upCount changes
      · have hb : score_sectors flog changes
            = (20, secFlatBullLabel (upCount changes) (downCount changes),
               upCount changes, downCount changes) := by
          simp only [score_sectors]
          rw [if_neg h0, if_neg hbb, if_pos hlt]
        have hs : specSectors flog (upCount changes) (downCount changes)
            = (20, FactorDir.Bullish) := by
          simp only [specSectors]
          rw [if_neg (by omega : ¬(upCount changes = 0 ∧ downCount changes = 0)),
            if_neg hbb, if_pos (by omega : 0 < upCount changes)]
        rw [hb, hs]
        refine ⟨rfl, ?_, ?_, ?_, rfl, rfl⟩
        · rw [bull_in_secFlatBull]; rfl
        · rw [bear_notin_secFlatBull]; rfl
        · unfold dirOfLabel
          rw [bull_in_secFlatBull]
          simp
      · have hb : score_sectors flog changes
            = (20, secFlatBearLabel (upCount changes) (downCount changes),
               upCount changes, downCount changes) := by
          simp only [score_sectors]
          rw [if_neg h0, if_neg hbb, if_neg hlt]
        have hs : specSectors flog (upCount changes) (downCount changes)
            = (20, FactorDir.Bearish) := by
          simp only [specSectors]
          rw [if_neg (by omega : ¬(upCount changes = 0 ∧ downCount changes = 0)),
            if_neg hbb, if_neg (by omega : ¬0 < upCount changes)]
        rw [hb, hs]
        refine ⟨rfl, ?_, ?_, ?_, rfl, rfl⟩
        · rw [bull_notin_secFlatBear]; rfl
        · rw [bear_in_secFlatBear]; rfl
        · unfold dirOfLabel
          rw [bull_notin_secFlatBear, bear_in_secFlatBear]
          simp

/-! ### Pipeline projections (all definitional) -/

theorem run_blocked_eq (flog : ℚ → ℚ) (snap : IndicatorSnapshot) :
    (runScoring flog snap).vix_blocked = decide ((score_vix snap.vix).1 = -999) := rfl

theorem run_final_eq (flog : ℚ → ℚ) (snap : IndicatorSnapshot) :
    (runScoring flog snap).final_score
      = max 0 ((score_nifty_breadth snap.top10).1 + (score_oi_ratio snap.oi_ratio).1
          + (score_adv_dec flog snap.advances snap.declines).1 + (score_sectors flog snap.sectors).1
          + (if (runScoring flog snap).vix_blocked then 0 else (score_vix snap.vix).1)) := rfl

theorem run_trade_eq (flog : ℚ → ℚ) (snap : IndicatorSnapshot) :
    (runScoring flog snap).trade
      = get_trade_recommendation (runScoring flog snap).final_score
          (runDetails (runScoring flog snap)) (runScoring flog snap).vix_blocked := rfl

/-! ### Point bounds of the factor scorers -/

theorem score_vix_cases (v : Option ℚ) :
    (score_vix v).1 = 0 ∨ (score_vix v).1 = -10 ∨ (score_vix v).1 = -999 := by
  match v with
  | none => exact Or.inl rfl
  | some x =>
    simp only [score_vix]
    by_cases h1 : x > 20
    · rw [if_pos h1]; exact Or.inr (Or.inr rfl)
    · rw [if_neg h1]
      by_cases h2 : x > 15
      · rw [if_pos h2]; exact Or.inr (Or.inl rfl)
      · rw [if_neg h2]; exact Or.inl rfl

theorem specBasket_le (up down : ℕ) (hu : up ≤ 10) (hd : down ≤ 10) :
    (specBasket up down).1 ≤ 30 := by
  unfold specBasket
  by_cases h0 : up = 0 ∧ down = 0
  · rw [if_pos h0]; norm_num
  · rw [if_neg h0]
    by_cases h6 : 6 ≤ up
    · rw [if_pos h6]
      have : (up : ℚ) ≤ 10 := by exact_mod_cast hu
      show (up : ℚ) / 10 * 30 ≤ 30
      linarith
    · rw [if_neg h6]
      by_cases h6d : 6 ≤ down
      · rw [if_pos h6d]
        have : (down : ℚ) ≤ 10 := by exact_mod_cast hd
        show (down : ℚ) / 10 * 30 ≤ 30
        linarith
      · rw [if_neg h6d]; norm_num

theorem specOi_le (oiv : Option ℚ) : (specOi oiv).1 ≤ 30 := by
  match oiv with
  | none => norm_num [specOi]
  | some r =>
    simp only [specOi]
    by_cases h1 : r > 1
    · rw [if_pos h1]
      show round1 (min 30 ((r - 1) * 30 + 15)) ≤ 30
      have h := round1_le_ofInt (min 30 ((r - 1) * 30 + 15)) 30 (by push_cast; exact min_le_left _ _)
      simpa using h
    · rw [if_neg h1]
      by_cases h7 : r < 7/10
      · rw [if_pos h7]
        show round1 (min 30 ((1 - r) * 30 + 15)) ≤ 30
        have h := round1_le_ofInt (min 30 ((1 - r) * 30 + 15)) 30 (by push_cast; exact min_le_left _ _)
        simpa using h
      · rw [if_neg h7]; norm_num

theorem round1_strength_le (x : ℚ) : round1 (min 1 x * 20) ≤ 20 := by
  have hm : min 1 x ≤ 1 := min_le_left _ _
  have h := round1_le_ofInt (min 1 x * 20) 20 (by push_cast; linarith)
  simpa using h

theorem specAdv_le (flog : ℚ → ℚ) (a d : ℕ) : (specAdvDec flog a d).1 ≤ 20 := by
  unfold specAdvDec
  by_cases h0 : a = 0 ∧ d = 0
  · rw [if_pos h0]; norm_num
  · rw [if_neg h0]
    by_cases hb : d = 0 ∧ 0 < a
    · rw [if_pos hb]
    · rw [if_neg hb]
      by_cases ha : a = 0 ∧ 0 < d
      · rw [if_pos ha]
      · rw [if_neg ha]
        by_cases hr1 : (a : ℚ) / (d : ℚ) > 11/10
        · rw [if_pos hr1]
          exact round1_strength_le _
        · rw [if_neg hr1]
          by_cases hr2 : (a : ℚ) / (d : ℚ) < 9/10
          · rw [if_pos hr2]
            exact round1_strength_le _
          · rw [if_neg hr2]; norm_num

theorem specSec_le (flog : ℚ → ℚ) (bull bear : ℕ) : (specSectors flog bull bear).1 ≤ 20 := by
  unfold specSectors
  by_cases h0 : bull = 0 ∧ bear = 0
  · rw [if_pos h0]; norm_num
  · rw [if_neg h0]
    by_cases hbb : 0 < bull ∧ 0 < bear
    · rw [if_pos hbb]
      by_cases hr1 : (bull : ℚ) / (bear : ℚ) > 11/10
      · rw [if_pos hr1]
        exact round1_strength_le _
      · rw [if_neg hr1]
        by_cases hr2 : (bull : ℚ) / (bear : ℚ) < 9/10
        · rw [if_pos hr2]
          exact round1_strength_le _
        · rw [if_neg hr2]; norm_num
    · rw [if_neg hbb]
      by_cases hlt : 0 < bull
      · rw [if_pos hlt]
      · rw [if_neg hlt]

/-! ### The decision table of the recommendation engine -/

theorem trade_table (score : ℚ) (details : List Label) :
    ((((bullCount details : ℤ) - (bearCount details : ℤ)).natAbs ≤ 1 ∨ score < 65)
      → get_trade_recommendation score details false = flatRec)
  ∧ (1 < ((bullCount details : ℤ) - (bearCount details : ℤ)).natAbs → 65 ≤ score →
      ((bearCount details < bullCount details →
         (80 ≤ score → get_trade_recommendation score details false
            = strongRec "PUT side (Bullish)")
       ∧ (score < 80 → get_trade_recommendation score details false
            = decentRec "PUT side (Bullish)"))
      ∧ (bullCount details < bearCount details →
         (80 ≤ score → get_trade_recommendation score details false
            = strongRec "CALL side (Bearish)")
       ∧ (score < 80 → get_trade_recommendation score details false
            = decentRec "CALL side (Bearish)")))) := by
  unfold get_trade_recommendation
  rw [if_neg (by exact Bool.false_ne_true)]
  constructor
  · intro hc
    rw [if_pos hc]
  · intro hgt hge
    have hnc : ¬(((bullCount details : ℤ) - (bearCount details : ℤ)).natAbs ≤ 1 ∨ score < 65) := by
      push_neg
      exact ⟨by omega, hge⟩
    constructor
    · intro hbe
      constructor
      · intro h80
        rw [if_neg hnc, if_pos hbe, if_pos h80]
      · intro h80
        rw [if_neg hnc, if_pos hbe, if_neg (not_le.mpr h80)]
    · intro heb
      have hneb : ¬(bearCount details < bullCount details) := by omega
      constructor
      · intro h80
        rw [if_neg hnc, if_neg hneb, if_pos h80]
      · intro h80
        rw [if_neg hnc, if_neg hneb, if_neg (not_le.mpr h80)]

/-! ### Substring counts agree with typed direction counts -/

theorem counts_eq (flog : ℚ → ℚ) (snap : IndicatorSnapshot) :
    bullCount (runDetails (runScoring flog snap))
      = (factorDirs flog snap).countP (fun x => decide (x = FactorDir.Bullish))
  ∧ bearCount (runDetails (runScoring flog snap))
      = (factorDirs flog snap).countP (fun x => decide (x = FactorDir.Bearish)) := by
  have e1 : (runScoring flog snap).l_nifty = (score_nifty_breadth snap.top10).2.1 := rfl
  have e2 : (runScoring flog snap).l_oi = (score_oi_ratio snap.oi_ratio).2 := rfl
  have e3 : (runScoring flog snap).l_adv = (score_adv_dec flog snap.advances snap.declines).2 := rfl
  have e4 : (runScoring flog snap).l_sec = (score_sectors flog snap.sectors).2.1 := rfl
  unfold bullCount bearCount runDetails factorDirs
  rw [e1, e2, e3, e4]
  simp only [List.countP_cons, List.countP_nil]
  rw [(nifty_report snap.top10).2.1, (oi_report snap.oi_ratio).2.1,
    (adv_report flog snap.advances snap.declines).2.1, (sec_report flog snap.sectors).2.1,
    (nifty_report snap.top10).2.2.1, (oi_report snap.oi_ratio).2.2.1,
    (adv_report flog snap.advances snap.declines).2.2.1, (sec_report flog snap.sectors).2.2.1]
  exact ⟨rfl, rfl⟩

/-! ### The checked pipeline never fails -/

theorem adv_decE_eq (flog : ℚ → ℚ) (a d : ℕ) :
    score_adv_decE flog a d = some (score_adv_dec flog a d) := by
  by_cases h0 : a = 0 ∧ d = 0
  · simp only [score_adv_decE, score_adv_dec, if_pos h0]
  · by_cases hd : d = 0
    · simp only [score_adv_decE, score_adv_dec, if_neg h0, if_pos hd]
    · by_cases ha : a = 0
      · simp only [score_adv_decE, score_adv_dec, if_neg h0, if_neg hd, if_pos ha]
      · have hdq : ((d : ℚ)) ≠ 0 := Nat.cast_ne_zero.mpr hd
        have hpos : (0:ℚ) < (a : ℚ) / (d : ℚ) :=
          div_pos (by exact_mod_cast Nat.pos_of_ne_zero ha)
            (by exact_mod_cast Nat.pos_of_ne_zero hd)
        simp only [score_adv_decE, score_adv_dec, if_neg h0, if_neg hd, if_neg ha,
          pyDiv, if_neg hdq, pyLog, if_pos hpos, Option.some_bind]
        by_cases hr1 : (a : ℚ) / (d : ℚ) > 11/10
        · simp only [if_pos hr1]
        · by_cases hr2 : (a : ℚ) / (d : ℚ) < 9/10
          · simp only [if_neg hr1, if_pos hr2]
          · simp only [if_neg hr1, if_neg hr2]

theorem sectorsE_eq (flog : ℚ → ℚ) (changes : List (Option ℚ)) :
    score_sectorsE flog changes = some (score_sectors flog changes) := by
  by_cases h0 : upCount changes + downCount changes = 0
  · simp only [score_sectorsE, score_sectors, if_pos h0]
  · by_cases hbb : 0 < upCount changes ∧ 0 < downCount changes
    · have hdq : ((downCount changes : ℚ)) ≠ 0 := Nat.cast_ne_zero.mpr (by omega)
      have hpos : (0:ℚ) < (upCount changes : ℚ) / (downCount changes : ℚ) :=
        div_pos (by exact_mod_cast hbb.1) (by exact_mod_cast hbb.2)
      simp only [score_sectorsE, score_sectors, if_neg h0, if_pos hbb,
        pyDiv, if_neg hdq, pyLog, if_pos hpos, Option.some_bind]
      by_cases hr1 : (upCount changes : ℚ) / (downCount changes : ℚ) > 11/10
      · simp only [if_pos hr1]
      · by_cases hr2 : (upCount changes : ℚ) / (downCount changes : ℚ) < 9/10
        · simp only [if_neg hr1, if_pos hr2]
        · simp only [if_neg hr1, if_neg hr2]
    · by_cases hlt : downCount changes < upCount changes
      · simp only [score_sectorsE, score_sectors, if_neg h0, if_neg hbb, if_pos hlt]
      · simp only [score_sectorsE, score_sectors, if_neg h0, if_neg hbb, if_neg hlt]

theorem runScoringE_eq (flog : ℚ → ℚ) (snap : IndicatorSnapshot) :
    runScoringE flog snap = some (runScoring flog snap) := by
  unfold runScoringE
  rw [adv_decE_eq, sectorsE_eq]
  rfl

theorem mk_oi_ratioE_eq (putOI callOI : ℕ) : mk_oi_ratioE putOI callOI = mk_oi_ratio putOI callOI := by
  unfold mk_oi_ratioE mk_oi_ratio
  by_cases h : 0 < putOI ∧ 0 < callOI
  · rw [if_pos h, if_pos h]
    have hc : ((callOI : ℚ)) ≠ 0 := Nat.cast_ne_zero.mpr (by omega)
    unfold pyDiv
    rw [if_neg hc]
    rfl
  · rw [if_neg h, if_neg h]

/-! ### The natural logarithm of 3/2 lies in the interval assumed of `flog` -/

theorem real_log_three_halves :
    (161/400 : ℝ) ≤ Real.log (3/2) ∧ Real.log (3/2) < 163/400 := by
  have hupper : Real.log ((531441:ℝ)/524288) ≤ (531441:ℝ)/524288 - 1 :=
    Real.log_le_sub_one_of_pos (by norm_num)
  have hlowinv : Real.log (((531441:ℝ)/524288)⁻¹) ≤ ((531441:ℝ)/524288)⁻¹ - 1 :=
    Real.log_le_sub_one_of_pos (by norm_num)
  have hlower : 1 - ((531441:ℝ)/524288)⁻¹ ≤ Real.log ((531441:ℝ)/524288) := by
    rw [Real.log_inv] at hlowinv
    linarith
  have hinv : (((531441:ℝ)/524288))⁻¹ = 524288/531441 := by norm_num
  rw [hinv] at hlower
  have h12 : (12 : ℝ) * Real.log (3/2) = 7 * Real.log 2 + Real.log ((531441:ℝ)/524288) := by
    have hp : Real.log ((3/2 : ℝ)^(12:ℕ)) = (12:ℝ) * Real.log (3/2) := by
      rw [Real.log_pow]
      push_cast
      ring
    have he : ((3/2 : ℝ))^(12:ℕ) = (2:ℝ)^(7:ℕ) * ((531441:ℝ)/524288) := by norm_num
    have hm : Real.log ((2:ℝ)^(7:ℕ) * ((531441:ℝ)/524288))
        = Real.log ((2:ℝ)^(7:ℕ)) + Real.log ((531441:ℝ)/524288) :=
      Real.log_mul (by norm_num) (by norm_num)
    have h27 : Real.log ((2:ℝ)^(7:ℕ)) = 7 * Real.log 2 := by
      rw [Real.log_pow]
      push_cast
      ring
    rw [← hp, he, hm, h27]
  have hl2u := Real.log_two_lt_d9
  have hl2l := Real.log_two_gt_d9
  constructor
  · linarith
  · linarith

/-! ### Claims -/

/-- Claim C1: whenever the volatility index is present and strictly greater
than 20, the trade recommendation is the Blocked one, for every choice of the
remaining inputs (basket, OI ratio, advances/declines, sectors) and every
logarithm — no Flat or Directional rule can override it. -/
theorem claim_C1 (flog : ℚ → ℚ) (snap : IndicatorSnapshot) (v : ℚ)
    (hv : snap.vix = some v) (h20 : v > 20) :
    (runScoring flog snap).trade = blockedRec
  ∧ (runScoring flog snap).trade.type = "BLOCKED" := by
  have hadj : (score_vix snap.vix).1 = -999 := by
    rw [hv]
    simp only [score_vix]
    rw [if_pos h20]
  have hb : (runScoring flog snap).vix_blocked = true := by
    rw [run_blocked_eq, hadj]
    exact decide_eq_true rfl
  have ht : (runScoring flog snap).trade = blockedRec := by
    rw [run_trade_eq, hb]
    unfold get_trade_recommendation
    rw [if_pos rfl]
  exact ⟨ht, by rw [ht]; rfl⟩

/-- Witness for C1: a snapshot with VIX 25 and strongly bullish factors is
still Blocked. -/
theorem claim_C1_witness :
    snapBlocked.vix = some 25 ∧ (25:ℚ) > 20
  ∧ (runScoring flogW snapBlocked).trade = blockedRec :=
  ⟨rfl, by norm_num, (claim_C1 flogW snapBlocked 25 rfl (by norm_num)).1⟩

/-- Claim C2: the final score is `max 0` of the sum of the four additive
factor points plus the volatility adjustment when not blocked; when blocked
the −999 sentinel is not added; the result is at least 0 and (with the
ten-entry basket and sector set) at most 100, even though the aggregator
itself applies no upper cap. -/
theorem claim_C2 (flog : ℚ → ℚ) (snap : IndicatorSnapshot)
    (h10 : snap.top10.length = 10) (_hs10 : snap.sectors.length = 10) :
    (runScoring flog snap).final_score
      = max 0 ((runScoring flog snap).s_nifty + (runScoring flog snap).s_oi
          + (runScoring flog snap).s_adv + (runScoring flog snap).s_sec
          + (if (runScoring flog snap).vix_blocked then 0 else (runScoring flog snap).vix_adj))
  ∧ ((runScoring flog snap).vix_blocked = true →
      (runScoring flog snap).final_score
        = max 0 ((runScoring flog snap).s_nifty + (runScoring flog snap).s_oi
            + (runScoring flog snap).s_adv + (runScoring flog snap).s_sec + 0))
  ∧ 0 ≤ (runScoring flog snap).final_score
  ∧ (runScoring flog snap).final_score ≤ 100 := by
  have hn : (runScoring flog snap).s_nifty ≤ 30 := by
    have he : (runScoring flog snap).s_nifty = (score_nifty_breadth snap.top10).1 := rfl
    rw [he, (nifty_report snap.top10).1]
    refine specBasket_le _ _ ?_ ?_
    · exact le_trans (List.countP_le_length _) (le_of_eq h10)
    · exact le_trans (List.countP_le_length _) (le_of_eq h10)
  have ho : (runScoring flog snap).s_oi ≤ 30 := by
    have he : (runScoring flog snap).s_oi = (score_oi_ratio snap.oi_ratio).1 := rfl
    rw [he, (oi_report snap.oi_ratio).1]
    exact specOi_le _
  have ha : (runScoring flog snap).s_adv ≤ 20 := by
    have he : (runScoring flog snap).s_adv = (score_adv_dec flog snap.advances snap.declines).1 := rfl
    rw [he, (adv_report flog snap.advances snap.declines).1]
    exact specAdv_le _ _ _
  have hs : (runScoring flog snap).s_sec ≤ 20 := by
    have he : (runScoring flog snap).s_sec = (score_sectors flog snap.sectors).1 := rfl
    rw [he, (sec_report flog snap.sectors).1]
    exact specSec_le _ _ _
  have hadj : (if (runScoring flog snap).vix_blocked then 0 else (runScoring flog snap).vix_adj)
      ≤ (0 : ℚ) := by
    cases hb : (runScoring flog snap).vix_blocked
    · rw [if_neg (by exact Bool.false_ne_true)]
      have hr : (runScoring flog snap).vix_adj = (score_vix snap.vix).1 := rfl
      rcases score_vix_cases snap.vix with h | h | h
      · rw [hr, h]
      · rw [hr, h]; norm_num
      · exfalso
        have hd : decide ((score_vix snap.vix).1 = -999) = false := by
          rw [← run_blocked_eq flog snap]; exact hb
        exact of_decide_eq_false hd h
    · rw [if_pos rfl]
  refine ⟨rfl, ?_, le_max_left 0 _, ?_⟩
  · intro h
    have he : (runScoring flog snap).final_score
        = max 0 ((runScoring flog snap).s_nifty + (runScoring flog snap).s_oi
            + (runScoring flog snap).s_adv + (runScoring flog snap).s_sec
            + (if (runScoring flog snap).vix_blocked then 0 else (runScoring flog snap).vix_adj)) := rfl
    rw [he, h, if_pos rfl]
  · have he : (runScoring flog snap).final_score
        = max 0 ((runScoring flog snap).s_nifty + (runScoring flog snap).s_oi
            + (runScoring flog snap).s_adv + (runScoring flog snap).s_sec
            + (if (runScoring flog snap).vix_blocked then 0 else (runScoring flog snap).vix_adj)) := rfl
    rw [he]
    exact max_le (by norm_num) (by linarith)

/-- Witness for C2: the total on a concrete 10-stock/10-sector snapshot is
within the claimed bounds. -/
theorem claim_C2_witness :
    snapFlat.top10.length = 10 ∧ snapFlat.sectors.length = 10
  ∧ 0 ≤ (runScoring flogW snapFlat).final_score
  ∧ (runScoring flogW snapFlat).final_score ≤ 100 :=
  ⟨rfl, rfl, (claim_C2 flogW snapFlat rfl rfl).2.2.1, (claim_C2 flogW snapFlat rfl rfl).2.2.2⟩

/-- Claim C3: on every non-blocked run the recommendation follows the decision
table over the final score and the bullish/bearish tallies of the four
additive factor labels: a tally gap of at most 1 or a score below 65 yields
the Flat recommendation; otherwise the PUT side is sold when bullish factors
outnumber bearish ones and the CALL side when they are outnumbered, with the
wide `0.30–0.40Δ` band at score ≥ 80 and the `0.30Δ` band at 65 ≤ score < 80. -/
theorem claim_C3 (flog : ℚ → ℚ) (snap : IndicatorSnapshot)
    (hnb : (runScoring flog snap).vix_blocked = false) :
    ((((bullCount (runDetails (runScoring flog snap)) : ℤ)
        - (bearCount (runDetails (runScoring flog snap)) : ℤ)).natAbs ≤ 1
      ∨ (runScoring flog snap).final_score < 65)
      → (runScoring flog snap).trade = flatRec)
  ∧ (1 < ((bullCount (runDetails (runScoring flog snap)) : ℤ)
        - (bearCount (runDetails (runScoring flog snap)) : ℤ)).natAbs
      → 65 ≤ (runScoring flog snap).final_score →
      ((bearCount (runDetails (runScoring flog snap))
          < bullCount (runDetails (runScoring flog snap)) →
         (80 ≤ (runScoring flog snap).final_score →
            (runScoring flog snap).trade = strongRec "PUT side (Bullish)")
       ∧ ((runScoring flog snap).final_score < 80 →
            (runScoring flog snap).trade = decentRec "PUT side (Bullish)"))
      ∧ (bullCount (runDetails (runScoring flog snap))
          < bearCount (runDetails (runScoring flog snap)) →
         (80 ≤ (runScoring flog snap).final_score →
            (runScoring flog snap).trade = strongRec "CALL side (Bearish)")
       ∧ ((runScoring flog snap).final_score < 80 →
            (runScoring flog snap).trade = decentRec "CALL side (Bearish)")))) := by
  have ht : (runScoring flog snap).trade
      = get_trade_recommendation (runScoring flog snap).final_score
          (runDetails (runScoring flog snap)) false := by
    rw [run_trade_eq, hnb]
  rw [ht]
  exact trade_table _ _

/-- Witness for C3: a safe-VIX snapshot with one bullish factor and three
neutral ones lands in the Flat row of the table. -/
theorem claim_C3_witness :
    (runScoring flogW snapFlat).vix_blocked = false
  ∧ (runScoring flogW snapFlat).trade = flatRec := by
  have h0 : (score_vix snapFlat.vix).1 = 0 := by
    show (score_vix (some 12)).1 = 0
    simp only [score_vix]
    rw [if_neg (by norm_num : ¬(12:ℚ) > 20), if_neg (by norm_num : ¬(12:ℚ) > 15)]
  have hnb : (runScoring flogW snapFlat).vix_blocked = false := by
    rw [run_blocked_eq, h0]
    exact decide_eq_false (by norm_num)
  have hup : upCount snapFlat.top10 = 10 := by
    show upCount (List.replicate 10 (some 1)) = 10
    norm_num [upCount, List.replicate, List.countP, List.countP.go]
  have hdn : downCount snapFlat.top10 = 0 := by
    show downCount (List.replicate 10 (some 1)) = 0
    norm_num [downCount, List.replicate, List.countP, List.countP.go]
  have hus : upCount snapFlat.sectors = 0 := by
    show upCount (List.replicate 10 none) = 0
    norm_num [upCount, List.replicate, List.countP, List.countP.go]
  have hds : downCount snapFlat.sectors = 0 := by
    show downCount (List.replicate 10 none) = 0
    norm_num [downCount, List.replicate, List.countP, List.countP.go]
  have h1 : (specBasket 10 0).2 = FactorDir.Bullish := by
    unfold specBasket
    rw [if_neg (by omega : ¬((10:ℕ) = 0 ∧ (0:ℕ) = 0)), if_pos (by omega : 6 ≤ 10)]
  have h2 : (specOi snapFlat.oi_ratio).2 = FactorDir.Neutral := by
    show (specOi (some 1)).2 = FactorDir.Neutral
    simp only [specOi]
    rw [if_neg (by norm_num : ¬(1:ℚ) > 1), if_neg (by norm_num : ¬(1:ℚ) < 7/10)]
  have h3 : (specAdvDec flogW snapFlat.advances snapFlat.declines).2 = FactorDir.Neutral := by
    show (specAdvDec flogW 0 0).2 = FactorDir.Neutral
    simp [specAdvDec]
  have h4 : (specSectors flogW 0 0).2 = FactorDir.Neutral := by
    simp [specSectors]
  have hb : bullCount (runDetails (runScoring flogW snapFlat)) = 1 := by
    rw [(counts_eq flogW snapFlat).1]
    unfold factorDirs
    rw [hup, hdn, hus, hds, h1, h2, h3, h4]
    decide
  have he : bearCount (runDetails (runScoring flogW snapFlat)) = 0 := by
    rw [(counts_eq flogW snapFlat).2]
    unfold factorDirs
    rw [hup, hdn, hus, hds, h1, h2, h3, h4]
    decide
  refine ⟨hnb, (claim_C3 flogW snapFlat hnb).1 (Or.inl ?_)⟩
  rw [hb, he]
  decide

/-- Evaluation of the advance/decline scorer at 30 advances, 20 declines:
the log-scaled bullish branch with ratio 3/2. -/
theorem adv_30_20 (flog : ℚ → ℚ) :
    score_adv_dec flog 30 20
      = (round1 (min 1 |flog (3/2)| * 20),
         advBullLabel (round1 (min 1 |flog (3/2)| * 20)) 30 20) := by
  have hc : (((30:ℕ)):ℚ) / (((20:ℕ)):ℚ) = 3/2 := by norm_num
  simp only [score_adv_dec]
  norm_num [hc]

/-- Counterexample to C4 as stated: at advances 30, declines 20 the scorer
returns the rounded value 8.1, not the claimed `strength × 20` itself.
`flogW` agrees with the IEEE `math.log(1.5) = 0.40546510…` to six decimals;
for it (and for any logarithm accurate to even three decimals)
`strength × 20 = 8.1093 ≠ 8.1`. -/
theorem claim_C4_counterexample :
    (score_adv_dec flogW 30 20).1 = 81/10
  ∧ (score_adv_dec flogW 30 20).1 ≠ min 1 |flogW ((30:ℚ)/(20:ℚ))| * 20 := by
  have hval : min 1 |flogW ((30:ℚ)/(20:ℚ))| * 20 = 81093/10000 := by
    show min 1 |(405465/1000000 : ℚ)| * 20 = 81093/10000
    rw [abs_of_nonneg (by norm_num : (0:ℚ) ≤ 405465/1000000),
      min_eq_right (by norm_num : (405465/1000000:ℚ) ≤ 1)]
    norm_num
  have hval2 : min 1 |flogW (3/2)| * 20 = 81093/10000 := by
    show min 1 |(405465/1000000 : ℚ)| * 20 = 81093/10000
    rw [abs_of_nonneg (by norm_num : (0:ℚ) ≤ 405465/1000000),
      min_eq_right (by norm_num : (405465/1000000:ℚ) ≤ 1)]
    norm_num
  have h1 : (score_adv_dec flogW 30 20).1 = 81/10 := by
    rw [adv_30_20 flogW]
    show round1 (min 1 |flogW (3/2)| * 20) = 81/10
    rw [hval2, round1_eq_of 81 (by norm_num) (by norm_num)]
    norm_num
  refine ⟨h1, ?_⟩
  rw [h1, hval]
  norm_num

/-- Claim C4 (amended: the returned points are the one-decimal rounding of
the strength formula, as the code's `round(..., 1)` and the spec's own 8.1
example reflect): the advance/decline scorer matches the spec table in
points and direction, and at advances 30, declines 20 — for any logarithm
within a rational interval that contains ln 1.5 (see
`real_log_three_halves`) — returns 8.1 points with a Bullish label. -/
theorem claim_C4 (flog : ℚ → ℚ) (a d : ℕ)
    (hlog : 161/400 ≤ flog (3/2) ∧ flog (3/2) < 163/400) :
    ((score_adv_dec flog a d).1 = (specAdvDec flog a d).1
      ∧ dirOfLabel (score_adv_dec flog a d).2 = (specAdvDec flog a d).2)
  ∧ ((score_adv_dec flog 30 20).1 = 81/10
      ∧ dirOfLabel (score_adv_dec flog 30 20).2 = FactorDir.Bullish) := by
  refine ⟨⟨(adv_report flog a d).1, (adv_report flog a d).2.2.2⟩, ?_, ?_⟩
  · rw [adv_30_20 flog]
    show round1 (min 1 |flog (3/2)| * 20) = 81/10
    rw [abs_of_nonneg (le_trans (by norm_num) hlog.1),
      min_eq_right (le_of_lt (lt_trans hlog.2 (by norm_num)))]
    rw [round1_eq_of 81 (by linarith [hlog.1]) (by linarith [hlog.2])]
    norm_num
  · rw [adv_30_20 flog]
    show dirOfLabel (advBullLabel (round1 (min 1 |flog (3/2)| * 20)) 30 20) = FactorDir.Bullish
    unfold dirOfLabel
    rw [bull_in_advBull]
    simp

/-- Witness for C4: `flogW` satisfies the logarithm interval, and the
(30, 20) instance evaluates as the amended claim states. -/
theorem claim_C4_witness :
    (161/400 ≤ flogW (3/2) ∧ flogW (3/2) < 163/400)
  ∧ ((score_adv_dec flogW 30 20).1 = 81/10
      ∧ dirOfLabel (score_adv_dec flogW 30 20).2 = FactorDir.Bullish) := by
  have hlog : 161/400 ≤ flogW (3/2) ∧ flogW (3/2) < 163/400 := by
    constructor
    · show (161/400:ℚ) ≤ 405465/1000000
      norm_num
    · show (405465/1000000:ℚ) < 163/400
      norm_num
  exact ⟨hlog, (claim_C4 flogW 0 0 hlog).2⟩

/-- Claim C5: the sector scorer is asymmetric in its zero handling — both
sides zero gives 10 Neutral, exactly one side zero and the other positive
gives a flat 20 with the nonzero side's direction (no log scaling), and both
sides nonzero uses the log-scaled strength with the 1.1/0.9 neutral band
like advance/decline. -/
theorem claim_C5 (flog : ℚ → ℚ) (changes : List (Option ℚ)) :
    ((score_sectors flog changes).1 = (specSectors flog (upCount changes) (downCount changes)).1
      ∧ dirOfLabel (score_sectors flog changes).2.1
          = (specSectors flog (upCount changes) (downCount changes)).2)
  ∧ (upCount changes = 0 → downCount changes = 0 →
      (score_sectors flog changes).1 = 10
      ∧ dirOfLabel (score_sectors flog changes).2.1 = FactorDir.Neutral)
  ∧ (0 < upCount changes → downCount changes = 0 →
      (score_sectors flog changes).1 = 20
      ∧ dirOfLabel (score_sectors flog changes).2.1 = FactorDir.Bullish)
  ∧ (upCount changes = 0 → 0 < downCount changes →
      (score_sectors flog changes).1 = 20
      ∧ dirOfLabel (score_sectors flog changes).2.1 = FactorDir.Bearish)
  ∧ (0 < upCount changes → 0 < downCount changes →
      (score_sectors flog changes).1
        = (if (upCount changes : ℚ) / (downCount changes : ℚ) > 11/10
             then round1 (min 1 |flog ((upCount changes : ℚ) / (downCount changes : ℚ))| * 20)
           else if (upCount changes : ℚ) / (downCount changes : ℚ) < 9/10
             then round1 (min 1 |flog ((upCount changes : ℚ) / (downCount changes : ℚ))| * 20)
           else 10)
      ∧ dirOfLabel (score_sectors flog changes).2.1
          = (if (upCount changes : ℚ) / (downCount changes : ℚ) > 11/10 then FactorDir.Bullish
             else if (upCount changes : ℚ) / (downCount changes : ℚ) < 9/10 then FactorDir.Bearish
             else FactorDir.Neutral)) := by
  have hr := sec_report flog changes
  refine ⟨⟨hr.1, hr.2.2.2.1⟩, ?_, ?_, ?_, ?_⟩
  · intro hu hd
    have hs : specSectors flog (upCount changes) (downCount changes) = (10, FactorDir.Neutral) := by
      unfold specSectors
      rw [if_pos ⟨hu, hd⟩]
    rw [hr.1, hr.2.2.2.1, hs]
    exact ⟨rfl, rfl⟩
  · intro hu hd
    have hs : specSectors flog (upCount changes) (downCount changes)
        = (20, FactorDir.Bullish) := by
      unfold specSectors
      rw [if_neg (by omega : ¬(upCount changes = 0 ∧ downCount changes = 0)),
        if_neg (by omega : ¬(0 < upCount changes ∧ 0 < downCount changes)), if_pos hu]
    rw [hr.1, hr.2.2.2.1, hs]
    exact ⟨rfl, rfl⟩
  · intro hu hd
    have hs : specSectors flog (upCount changes) (downCount changes)
        = (20, FactorDir.Bearish) := by
      unfold specSectors
      rw [if_neg (by omega : ¬(upCount changes = 0 ∧ downCount changes = 0)),
        if_neg (by omega : ¬(0 < upCount changes ∧ 0 < downCount changes)),
        if_neg (by omega : ¬0 < upCount changes)]
    rw [hr.1, hr.2.2.2.1, hs]
    exact ⟨rfl, rfl⟩
  · intro hu hd
    have hs : specSectors flog (upCount changes) (downCount changes)
        = (if (upCount changes : ℚ) / (downCount changes : ℚ) > 11/10
             then (round1 (min 1 |flog ((upCount changes : ℚ) / (downCount changes : ℚ))| * 20),
                   FactorDir.Bullish)
           else if (upCount changes : ℚ) / (downCount changes : ℚ) < 9/10
             then (round1 (min 1 |flog ((upCount changes : ℚ) / (downCount changes : ℚ))| * 20),
                   FactorDir.Bearish)
           else (10, FactorDir.Neutral)) := by
      unfold specSectors
      rw [if_neg (by omega : ¬(upCount changes = 0 ∧ downCount changes = 0)), if_pos ⟨hu, hd⟩]
    rw [hr.1, hr.2.2.2.1, hs]
    constructor
    · by_cases hr1 : (upCount changes : ℚ) / (downCount changes : ℚ) > 11/10
      · rw [if_pos hr1, if_pos hr1]
      · rw [if_neg hr1, if_neg hr1]
        by_cases hr2 : (upCount changes : ℚ) / (downCount changes : ℚ) < 9/10
        · rw [if_pos hr2, if_pos hr2]
        · rw [if_neg hr2, if_neg hr2]
    · by_cases hr1 : (upCount changes : ℚ) / (downCount changes : ℚ) > 11/10
      · rw [if_pos hr1, if_pos hr1]
      · rw [if_neg hr1, if_neg hr1]
        by_cases hr2 : (upCount changes : ℚ) / (downCount changes : ℚ) < 9/10
        · rw [if_pos hr2, if_pos hr2]
        · rw [if_neg hr2, if_neg hr2]

/-- Witness for C5: five rising sectors and none falling take the
asymmetric flat-20 bullish branch. -/
theorem claim_C5_witness :
    0 < upCount secWitList ∧ downCount secWitList = 0
  ∧ (score_sectors flogW secWitList).1 = 20
  ∧ dirOfLabel (score_sectors flogW secWitList).2.1 = FactorDir.Bullish := by
  have hu : upCount secWitList = 5 := by
    norm_num [secWitList, upCount, List.countP, List.countP.go, List.replicate]
  have hd : downCount secWitList = 0 := by
    norm_num [secWitList, downCount, List.countP, List.countP.go, List.replicate]
  have h := (claim_C5 flogW secWitList).2.2.1 (by rw [hu]; norm_num) hd
  exact ⟨by rw [hu]; norm_num, hd, h.1, h.2⟩

/-- Counterexample to C6 as stated: at ratio 1.001 the scorer returns the
rounded value 15.0, not the claimed `min(30, (ratio−1)×30 + 15) = 15.03`. -/
theorem claim_C6_counterexample :
    (score_oi_ratio (some (1001/1000))).1 = 15
  ∧ (score_oi_ratio (some (1001/1000))).1 ≠ min 30 (((1001/1000 : ℚ) - 1) * 30 + 15) := by
  have hb : (score_oi_ratio (some (1001/1000))).1
      = round1 (min 30 (((1001/1000:ℚ) - 1) * 30 + 15)) := by
    simp only [score_oi_ratio]
    rw [if_pos (by norm_num : (1001/1000:ℚ) > 1)]
  have hv : min (30:ℚ) (((1001/1000:ℚ) - 1) * 30 + 15) = 1503/100 := by
    rw [min_eq_right (by norm_num)]
    norm_num
  have hr : round1 ((1503:ℚ)/100) = 15 := by
    rw [round1_eq_of 150 (by norm_num) (by norm_num)]
    norm_num
  constructor
  · rw [hb, hv, hr]
  · rw [hb, hv, hr]
    norm_num

/-- Claim C6 (amended: the returned points are the one-decimal rounding of
the `min(30, …)` formulas): the open-interest scorer matches the spec table
in points and direction; a missing ratio gives 15 Neutral, and the boundary
ratio 1.0 gives 15 Neutral, not Bullish. -/
theorem claim_C6 (oiv : Option ℚ) :
    ((score_oi_ratio oiv).1 = (specOi oiv).1
      ∧ dirOfLabel (score_oi_ratio oiv).2 = (specOi oiv).2)
  ∧ ((score_oi_ratio none).1 = 15 ∧ dirOfLabel (score_oi_ratio none).2 = FactorDir.Neutral)
  ∧ ((score_oi_ratio (some 1)).1 = 15
      ∧ dirOfLabel (score_oi_ratio (some 1)).2 = FactorDir.Neutral) := by
  refine ⟨⟨(oi_report oiv).1, (oi_report oiv).2.2.2⟩, ⟨rfl, rfl⟩, ?_⟩
  have hb : score_oi_ratio (some 1) = (15, oiNeutLabel 1) := by
    simp only [score_oi_ratio]
    rw [if_neg (by norm_num : ¬(1:ℚ) > 1), if_neg (by norm_num : ¬(1:ℚ) < 7/10)]
  rw [hb]
  constructor
  · rfl
  · unfold dirOfLabel
    rw [bull_notin_oiNeut, bear_notin_oiNeut]
    simp

/-- Claim C7: the basket normalizer counts exactly the present strictly
positive entries as up and the present strictly negative ones as down
(`None` and exact zeros count in neither); the scorer matches the spec table
(15 Neutral when both counts are 0 or neither reaches 6, `(up/10)×30`
Bullish at up ≥ 6, `(down/10)×30` Bearish at down ≥ 6); and with all ten
entries up it returns 30 points Bullish. -/
theorem claim_C7 (changes l₁ l₂ : List (Option ℚ)) (v : ℚ) :
    (upCount (l₁ ++ (none :: l₂)) = upCount (l₁ ++ l₂)
      ∧ downCount (l₁ ++ (none :: l₂)) = downCount (l₁ ++ l₂))
  ∧ (upCount (l₁ ++ (some 0 :: l₂)) = upCount (l₁ ++ l₂)
      ∧ downCount (l₁ ++ (some 0 :: l₂)) = downCount (l₁ ++ l₂))
  ∧ (0 < v → upCount (l₁ ++ (some v :: l₂)) = upCount (l₁ ++ l₂) + 1
      ∧ downCount (l₁ ++ (some v :: l₂)) = downCount (l₁ ++ l₂))
  ∧ (v < 0 → upCount (l₁ ++ (some v :: l₂)) = upCount (l₁ ++ l₂)
      ∧ downCount (l₁ ++ (some v :: l₂)) = downCount (l₁ ++ l₂) + 1)
  ∧ ((score_nifty_breadth changes).1 = (specBasket (upCount changes) (downCount changes)).1
      ∧ dirOfLabel (score_nifty_breadth changes).2.1
          = (specBasket (upCount changes) (downCount changes)).2
      ∧ (score_nifty_breadth changes).2.2.1 = upCount changes
      ∧ (score_nifty_breadth changes).2.2.2 = downCount changes)
  ∧ ((score_nifty_breadth (List.replicate 10 (some 1))).1 = 30
      ∧ dirOfLabel (score_nifty_breadth (List.replicate 10 (some 1))).2.1 = FactorDir.Bullish
      ∧ (score_nifty_breadth (List.replicate 10 (some 1))).2.2.1 = 10) := by
  have hup : upCount (List.replicate 10 (some (1:ℚ))) = 10 := by
    norm_num [upCount, List.replicate, List.countP, List.countP.go]
  have hdn : downCount (List.replicate 10 (some (1:ℚ))) = 0 := by
    norm_num [downCount, List.replicate, List.countP, List.countP.go]
  have hrep := nifty_report (List.replicate 10 (some (1:ℚ)))
  have hsB : specBasket (upCount (List.replicate 10 (some (1:ℚ))))
        (downCount (List.replicate 10 (some (1:ℚ))))
      = ((((10:ℕ)) : ℚ) / 10 * 30, FactorDir.Bullish) := by
    rw [hup, hdn]
    unfold specBasket
    rw [if_neg (by omega : ¬((10:ℕ) = 0 ∧ (0:ℕ) = 0)), if_pos (by omega : 6 ≤ 10)]
  refine ⟨⟨?_, ?_⟩, ⟨?_, ?_⟩, fun hv => ⟨?_, ?_⟩, fun hv => ⟨?_, ?_⟩,
    ⟨(nifty_report changes).1, (nifty_report changes).2.2.2.1,
     (nifty_report changes).2.2.2.2.1, (nifty_report changes).2.2.2.2.2⟩, ?_, ?_, ?_⟩
  · simp [upCount, List.countP_append, List.countP_cons]
  · simp [downCount, List.countP_append, List.countP_cons]
  · simp [upCount, List.countP_append, List.countP_cons]
  · simp [downCount, List.countP_append, List.countP_cons]
  · simp [upCount, List.countP_append, List.countP_cons, hv]
    omega
  · simp [downCount, List.countP_append, List.countP_cons,
      (by linarith : ¬v < 0)]
  · simp [upCount, List.countP_append, List.countP_cons,
      (by linarith : ¬0 < v)]
  · simp [downCount, List.countP_append, List.countP_cons, hv]
    omega
  · rw [hrep.1, hsB]
    norm_num
  · rw [hrep.2.2.2.1, hsB]
  · rw [hrep.2.2.2.2.1, hup]

/-- Claim C8: the engine is total and never raises — the checked pipeline
(with explicit `ZeroDivisionError`/`ValueError` propagation for every
division and logarithm) always succeeds and agrees with the unchecked one;
the put/call ratio construction guards its division; and the all-missing
snapshot still produces a complete score (50) and a Flat recommendation. -/
theorem claim_C8 (flog : ℚ → ℚ) (snap : IndicatorSnapshot) (putOI callOI : ℕ) :
    runScoringE flog snap = some (runScoring flog snap)
  ∧ mk_oi_ratioE putOI callOI = mk_oi_ratio putOI callOI
  ∧ (runScoring flog emptySnap).final_score = 50
  ∧ (runScoring flog emptySnap).trade = flatRec := by
  have hvb : (runScoring flog emptySnap).vix_blocked = false := by
    rw [run_blocked_eq]
    have h0 : (score_vix emptySnap.vix).1 = 0 := rfl
    rw [h0]
    exact decide_eq_false (by norm_num)
  refine ⟨runScoringE_eq flog snap, mk_oi_ratioE_eq putOI callOI, ?_, ?_⟩
  · rw [run_final_eq, hvb]
    have h1 : (score_nifty_breadth emptySnap.top10).1 = 15 := rfl
    have h2 : (score_oi_ratio emptySnap.oi_ratio).1 = 15 := rfl
    have h3 : (score_adv_dec flog emptySnap.advances emptySnap.declines).1 = 10 := rfl
    have h4 : (score_sectors flog emptySnap.sectors).1 = 10 := rfl
    have h0 : (score_vix emptySnap.vix).1 = 0 := rfl
    rw [h1, h2, h3, h4, if_neg (by exact Bool.false_ne_true), h0]
    rw [max_eq_right (by norm_num : (0:ℚ) ≤ 15 + 15 + 10 + 10 + 0)]
    norm_num
  · rw [run_trade_eq, hvb]
    have hbc : bullCount (runDetails (runScoring flog emptySnap)) = 0 := rfl
    have hec : bearCount (runDetails (runScoring flog emptySnap)) = 0 := rfl
    unfold get_trade_recommendation
    rw [if_neg (by exact Bool.false_ne_true), hbc, hec]
    rw [if_pos (Or.inl (by norm_num))]

/-- Claim C9: the engine is deterministic — equal snapshots yield identical
runs, final scores and recommendations. -/
theorem claim_C9 (flog : ℚ → ℚ) (s t : IndicatorSnapshot) (h : s = t) :
    runScoring flog s = runScoring flog t
  ∧ (runScoring flog s).final_score = (runScoring flog t).final_score
  ∧ (runScoring flog s).trade = (runScoring flog t).trade := by
  subst h
  exact ⟨rfl, rfl, rfl⟩

/-- Witness for C9: scoring the same snapshot twice is bit-identical. -/
theorem claim_C9_witness :
    runScoring flogW snapFlat = runScoring flogW snapFlat
  ∧ (runScoring flogW snapFlat).trade = (runScoring flogW snapFlat).trade := by
  have h := claim_C9 flogW snapFlat snapFlat rfl
  exact ⟨h.1, h.2.2⟩

/-- Claim C10: a scorer's label contains "Bullish" exactly when its bullish
branch produced it and "Bearish" exactly when its bearish branch produced it
(neutral labels contain neither), so the substring tallies the
recommendation engine computes equal the true per-direction factor counts. -/
theorem claim_C10 (flog : ℚ → ℚ) (snap : IndicatorSnapshot)
    (changes : List (Option ℚ)) (oiv : Option ℚ) (a d : ℕ) :
    (pyIn ("Bullish".toList) (score_nifty_breadth changes).2.1 = true
      ↔ (specBasket (upCount changes) (downCount changes)).2 = FactorDir.Bullish)
  ∧ (pyIn ("Bearish".toList) (score_nifty_breadth changes).2.1 = true
      ↔ (specBasket (upCount changes) (downCount changes)).2 = FactorDir.Bearish)
  ∧ (pyIn ("Bullish".toList) (score_oi_ratio oiv).2 = true
      ↔ (specOi oiv).2 = FactorDir.Bullish)
  ∧ (pyIn ("Bearish".toList) (score_oi_ratio oiv).2 = true
      ↔ (specOi oiv).2 = FactorDir.Bearish)
  ∧ (pyIn ("Bullish".toList) (score_adv_dec flog a d).2 = true
      ↔ (specAdvDec flog a d).2 = FactorDir.Bullish)
  ∧ (pyIn ("Bearish".toList) (score_adv_dec flog a d).2 = true
      ↔ (specAdvDec flog a d).2 = FactorDir.Bearish)
  ∧ (pyIn ("Bullish".toList) (score_sectors flog changes).2.1 = true
      ↔ (specSectors flog (upCount changes) (downCount changes)).2 = FactorDir.Bullish)
  ∧ (pyIn ("Bearish".toList) (score_sectors flog changes).2.1 = true
      ↔ (specSectors flog (upCount changes) (downCount changes)).2 = FactorDir.Bearish)
  ∧ bullCount (runDetails (runScoring flog snap))
      = (factorDirs flog snap).countP (fun x => decide (x = FactorDir.Bullish))
  ∧ bearCount (runDetails (runScoring flog snap))
      = (factorDirs flog snap).countP (fun x => decide (x = FactorDir.Bearish)) := by
  refine ⟨?_, ?_, ?_, ?_, ?_, ?_, ?_, ?_, (counts_eq flog snap).1, (counts_eq flog snap).2⟩
  · rw [(nifty_report changes).2.1, decide_eq_true_eq]
  · rw [(nifty_report changes).2.2.1, decide_eq_true_eq]
  · rw [(oi_report oiv).2.1, decide_eq_true_eq]
  · rw [(oi_report oiv).2.2.1, decide_eq_true_eq]
  · rw [(adv_report flog a d).2.1, decide_eq_true_eq]
  · rw [(adv_report flog a d).2.2.1, decide_eq_true_eq]
  · rw [(sec_report flog changes).2.1, decide_eq_true_eq]
  · rw [(sec_report flog changes).2.2.1, decide_eq_true_eq]

/-- Witness for C7: a single present positive entry raises the up count by
one, and the all-up basket scores 30 points. -/
theorem claim_C7_witness :
    (0:ℚ) < 1
  ∧ upCount ([] ++ (some (1:ℚ) :: [])) = upCount ([] ++ ([] : List (Option ℚ))) + 1
  ∧ (score_nifty_breadth (List.replicate 10 (some 1))).1 = 30 := by
  have h := claim_C7 (List.replicate 10 (some 1)) [] [] 1
  exact ⟨by norm_num, (h.2.2.1 (by norm_num)).1, h.2.2.2.2.2.1⟩
